import Mathlib

/-!
# Sprout iFC handler: a shallow embedding of `sprout/ifchandler.cpp`

The definitions below follow `IfcHandler::filter_matches`,
`IfcHandler::calculate_application_servers`, `IfcHandler::lookup_ifcs`,
`IfcHandler::served_user_from_msg`, `parse_integer` and `parse_bool`
statement by statement. The number translation (ENUM) services, of which only the tests
are at hand, are modelled in a section of their own.

Modelling conventions.

* A rapidxml node is a name, a value and the ordered list of its children;
  `first_node(n)` is the first child named `n`, and the idiom
  `for (x = p->first_node(n); x; x = x->next_sibling(n))` visits the children named
  `n` in document order.
* `node->value()` is a `const char*`: it is read up to its first NUL (`c_str`).
* C++ exceptions are `Except`: `ifc_error` is the error type of the functions that
  throw it, and `try ... catch (ifc_error)` is `try_catch`.
* `long` is the 64-bit `long` of the LP64 platforms the program is built for;
  `strtol` saturates at `LONG_MIN` / `LONG_MAX`.
* `std::map<int32_t, bool>` and `std::multimap<int32_t, std::string>` are association
  lists kept in ascending key order; a multimap insertion goes to the upper bound of its
  key, so equal keys stay in insertion order.
* `rapidxml::xml_document::parse` is library code and is taken as a parameter, as is the
  predicate body `spt_matches`, which the source leaves unfinished.
* The call `filter_matches(session_case, msg, ifc)` in the source omits the
  `is_registered` argument of the four-parameter function it calls; the embedding passes
  the `is_registered` parameter of `calculate_application_servers`. Likewise
  `parse_boolean` is the function the source defines as `parse_bool`.
-/

namespace Sprout

/-! ## rapidxml nodes -/

/-- An `xml_node<>`: element name, value (text content) and children in document order. -/
inductive xml_node where
  | mk (name : String) (value : String) (children : List xml_node)

namespace xml_node

/-- The `name()` accessor. -/
def name : xml_node → String
  | mk n _ _ => n

/-- The `value()` accessor. -/
def value : xml_node → String
  | mk _ v _ => v

/-- The children of the node, in document order. -/
def children : xml_node → List xml_node
  | mk _ _ cs => cs

/-- The children named `nm`, in document order: what a
`first_node(nm)` / `next_sibling(nm)` loop visits. -/
def child_nodes (n : xml_node) (nm : String) : List xml_node :=
  n.children.filter (fun c => c.name == nm)

/-- The `first_node(nm)` call: the first child named `nm`, if any. -/
def first_node (n : xml_node) (nm : String) : Option xml_node :=
  n.children.find? (fun c => c.name == nm)

end xml_node

/-- An `xml_document<>`: its top-level nodes. A cleared document has none. -/
structure xml_document where
  children : List xml_node

/-- The `first_node(nm)` call on a document. -/
def xml_document.first_node (d : xml_document) (nm : String) : Option xml_node :=
  d.children.find? (fun c => c.name == nm)

/-- The characters of a `const char*` view of a string: everything before the first NUL. -/
def c_str (s : String) : List Char :=
  s.toList.takeWhile (fun c => c != '\x00')

/-! ## Exceptions -/

/-- Exception thrown internally during interpretation of filter criteria. -/
structure ifc_error where
  what : String

/-- The statement `try body catch (ifc_error err) handler`. -/
def try_catch {α : Type} (body : Except ifc_error α) (handler : ifc_error → Except ifc_error α) :
    Except ifc_error α :=
  match body with
  | .ok a => .ok a
  | .error err => handler err

/-! ## `strtol`, `parse_integer`, `parse_bool` -/

/-- The value `LONG_MAX` of a 64-bit `long`. -/
def LONG_MAX : Int := 9223372036854775807

/-- The value `LONG_MIN` of a 64-bit `long`. -/
def LONG_MIN : Int := -9223372036854775808

/-- The value `std::numeric_limits<int32_t>::max()`. -/
def INT32_MAX : Int := 2147483647

/-- The C-locale `isspace`. -/
def isspace (c : Char) : Bool :=
  c == ' ' || c == '\t' || c == '\n' || c == '\x0b' || c == '\x0c' || c == '\r'

/-- The C-locale `isdigit`. -/
def isdigit (c : Char) : Bool :=
  '0' ≤ c && c ≤ '9'

/-- The number a run of decimal digits denotes. -/
def decimal_value (digits : List Char) : Nat :=
  digits.foldl (fun acc d => acc * 10 + (d.toNat - '0'.toNat)) 0

/-- Saturation of an out-of-range `strtol` result. -/
def clamp_long (v : Int) : Int :=
  if v < LONG_MIN then LONG_MIN else if LONG_MAX < v then LONG_MAX else v

/-- The optional sign in front of a number: whether it is `-`, and what follows it. -/
def split_sign : List Char → Bool × List Char
  | [] => (false, [])
  | c :: t => if c = '-' then (true, t) else if c = '+' then (false, t) else (false, c :: t)

/-- The call `strtol(nptr, &endptr, 10)`: the converted value and what `endptr` points
at. Leading white space is skipped, one sign is accepted, then the longest run of digits
is converted; with no digit there is no conversion, the value is 0 and `endptr = nptr`. -/
def strtol (nptr : List Char) : Int × List Char :=
  let signed := split_sign (nptr.dropWhile isspace)
  let digits := signed.2.takeWhile isdigit
  if digits = [] then (0, nptr)
  else
    let v : Int := if signed.1 then -(decimal_value digits : Int) else (decimal_value digits : Int)
    (clamp_long v, signed.2.dropWhile isdigit)

/-- Attempt to parse the content of the node as a bounded integer, returning the result
or throwing. -/
def parse_integer (node : Option xml_node) (description : String) (min_value max_value : Int) :
    Except ifc_error Int :=
  match node with
  | none => .error ⟨"Missing mandatory value for " ++ description⟩
  | some node =>
    let nptr := c_str node.value
    let r := strtol nptr
    if nptr = [] ∨ r.2 ≠ [] then
      .error ⟨"Can't parse " ++ description ++ " as integer"⟩
    else if r.1 < min_value ∨ r.1 > max_value then
      .error ⟨description ++ " out of allowable range " ++ toString min_value ++ ".." ++
        toString max_value⟩
    else .ok r.1

/-- Parse an xs:boolean value. -/
def parse_bool (node : Option xml_node) (description : String) : Except ifc_error Bool :=
  match node with
  | none => .error ⟨"Missing mandatory value for " ++ description⟩
  | some node =>
    let nptr := c_str node.value
    .ok (nptr == "true".toList || nptr == "1".toList)

/-! ## `IfcHandler::filter_matches` -/

/-- A `std::map<int32_t, bool>`: entries in ascending key order, keys distinct. -/
abbrev GroupMap := List (Int × Bool)

/-- The lookup `groups.find(k)`: the mapped value, `none` for `groups.end()`. -/
def map_find (m : GroupMap) (k : Int) : Option Bool :=
  (m.find? (fun e => e.1 == k)).map Prod.snd

/-- The assignment `groups[k] = v`. -/
def map_set : GroupMap → Int → Bool → GroupMap
  | [], k, v => [(k, v)]
  | (k', v') :: rest, k, v =>
    if k < k' then (k, v) :: (k', v') :: rest
    else if k = k' then (k, v) :: rest
    else (k', v') :: map_set rest k v

/-- The inner loop of `filter_matches` for one SPT whose value is `val`: `group_nodes`
are the nodes the loop visits. -/
def fold_groups (cnf val : Bool) : List xml_node → GroupMap → Except ifc_error GroupMap
  | [], groups => .ok groups
  | group_node :: rest, groups =>
    match parse_integer (some group_node) "Group ID" 0 INT32_MAX with
    | .error err => .error err
    | .ok group =>
      match map_find groups group with
      | none => fold_groups cnf val rest (map_set groups group val)
      | some cur =>
        fold_groups cnf val rest
          (map_set groups group (if cnf then (cur || val) else (cur && val)))

/-- The outer loop of `filter_matches` over the SPT children of `trigger`. The inner
loop starts from `trigger->first_node("Group")`, as the source does. -/
def fold_spts {SessionCase Msg : Type}
    (spt_matches : SessionCase → Msg → xml_node → Except ifc_error Bool)
    (session_case : SessionCase) (msg : Msg) (trigger : xml_node) (cnf : Bool) :
    List xml_node → GroupMap → Except ifc_error GroupMap
  | [], groups => .ok groups
  | spt :: rest, groups =>
    let neg_result : Except ifc_error Bool :=
      match spt.first_node "ConditionNegated" with
      | none => .ok false
      | some neg_node => parse_bool (some neg_node) "ConditionNegated"
    match neg_result with
    | .error err => .error err
    | .ok neg =>
      match spt_matches session_case msg spt with
      | .error err => .error err
      | .ok raw =>
        let val := raw != neg
        match fold_groups cnf val (trigger.child_nodes "Group") groups with
        | .error err => .error err
        | .ok groups' => fold_spts spt_matches session_case msg trigger cnf rest groups'

/-- The final loop of `filter_matches` over the group map. -/
def combine_groups (cnf : Bool) (groups : GroupMap) : Bool :=
  groups.foldl (fun ret it => if cnf then (ret && it.2) else (ret || it.2)) cnf

/-- Check whether the message matches the specified criterion. -/
def filter_matches {SessionCase Msg : Type}
    (spt_matches : SessionCase → Msg → xml_node → Except ifc_error Bool)
    (session_case : SessionCase) (is_registered : Bool) (msg : Msg) (ifc : xml_node) :
    Except ifc_error Bool :=
  let indicator_disagrees : Except ifc_error Bool :=
    match ifc.first_node "ProfilePartIndicator" with
    | none => .ok false
    | some profile_part_indicator =>
      match parse_integer (some profile_part_indicator) "ProfilePartIndicator" 0 1 with
      | .error err => .error err
      | .ok n => .ok ((n == 0) != is_registered)
  match indicator_disagrees with
  | .error err => .error err
  | .ok true => .ok false
  | .ok false =>
    match ifc.first_node "TriggerPoint" with
    | none => .ok true
    | some trigger =>
      match parse_bool (trigger.first_node "ConditionTypeCNF") "ConditionTypeCNF" with
      | .error err => .error err
      | .ok cnf =>
        match fold_spts spt_matches session_case msg trigger cnf (trigger.child_nodes "SPT") [] with
        | .error err => .error err
        | .ok groups => .ok (combine_groups cnf groups)

/-! ## `IfcHandler::calculate_application_servers` -/

/-- A `std::multimap<int32_t, std::string>`: entries in ascending key order, equal keys
in insertion order. -/
abbrev AsMap := List (Int × String)

/-- The call `as_map.insert(std::pair(k, v))`: the entry goes right before the first
entry whose key is greater than `k`. -/
def multimap_insert : AsMap → Int → String → AsMap
  | [], k, v => [(k, v)]
  | (k', v') :: rest, k, v =>
    if k < k' then (k, v) :: (k', v') :: rest
    else (k', v') :: multimap_insert rest k v

/-- The body of the `try` block in the criteria loop, for one criterion. -/
def process_ifc {SessionCase Msg : Type}
    (spt_matches : SessionCase → Msg → xml_node → Except ifc_error Bool)
    (session_case : SessionCase) (is_registered : Bool) (msg : Msg) (ifc : xml_node)
    (as_map : AsMap) : Except ifc_error AsMap :=
  match filter_matches spt_matches session_case is_registered msg ifc with
  | .error err => .error err
  | .ok false => .ok as_map
  | .ok true =>
    let priority_node := ifc.first_node "Priority"
    match ifc.first_node "ApplicationServer" with
    | none => .ok as_map
    | some as =>
      match parse_integer priority_node "iFC priority" 0 INT32_MAX with
      | .error err => .error err
      | .ok priority =>
        match as.first_node "ServerName" with
        | none => .ok as_map
        | some server_name =>
          .ok (multimap_insert as_map priority (String.mk (c_str server_name.value)))

/-- The loop over the `InitialFilterCriteria` nodes: each criterion is processed inside
`try`, and the handler ignores a criterion that cannot be evaluated. -/
def ifc_loop {SessionCase Msg : Type}
    (spt_matches : SessionCase → Msg → xml_node → Except ifc_error Bool)
    (session_case : SessionCase) (is_registered : Bool) (msg : Msg) :
    List xml_node → AsMap → Except ifc_error AsMap
  | [], as_map => .ok as_map
  | ifc :: rest, as_map =>
    match try_catch (process_ifc spt_matches session_case is_registered msg ifc as_map)
        (fun _ => .ok as_map) with
    | .error err => .error err
    | .ok as_map' => ifc_loop spt_matches session_case is_registered msg rest as_map'

/-- The document `ifc_doc` after the guarded parse: the parsed document, or the cleared
one when `parse` threw `parse_error`. -/
def parse_or_clear (parse : String → Except String xml_document) (ifc_xml : String) :
    xml_document :=
  match parse ifc_xml with
  | .ok doc => doc
  | .error _ => ⟨[]⟩

/-- Determines the list of application servers to apply this message to, given the
supplied incoming filter criteria. The result is `as_list` after the call, or the
exception that leaves the function. -/
def calculate_application_servers {SessionCase Msg : Type}
    (parse : String → Except String xml_document)
    (spt_matches : SessionCase → Msg → xml_node → Except ifc_error Bool)
    (session_case : SessionCase) (is_registered : Bool) (msg : Msg) (ifc_xml : String)
    (as_list : List String) : Except ifc_error (List String) :=
  match (parse_or_clear parse ifc_xml).first_node "ServiceProfile" with
  | none => .ok as_list
  | some sp =>
    match ifc_loop spt_matches session_case is_registered msg
        (sp.child_nodes "InitialFilterCriteria") [] with
    | .error err => .error err
    | .ok as_map => .ok (as_list ++ as_map.map Prod.snd)

/-! ## Specification-side definitions -/

/-- The criteria of a filter-criteria document in document order: the
`InitialFilterCriteria` children of its first top-level `ServiceProfile`, none when the
text does not parse or has no such element. -/
def criteria (parse : String → Except String xml_document) (ifc_xml : String) : List xml_node :=
  match (parse_or_clear parse ifc_xml).first_node "ServiceProfile" with
  | none => []
  | some sp => sp.child_nodes "InitialFilterCriteria"

/-- The `(priority, server name)` a criterion is to record: it matches without a fault,
it carries an `ApplicationServer` with a `ServerName`, and its `Priority` is valid. -/
def recorded_entry {SessionCase Msg : Type}
    (spt_matches : SessionCase → Msg → xml_node → Except ifc_error Bool)
    (session_case : SessionCase) (is_registered : Bool) (msg : Msg) (ifc : xml_node) :
    Option (Int × String) :=
  match filter_matches spt_matches session_case is_registered msg ifc,
      ifc.first_node "ApplicationServer",
      parse_integer (ifc.first_node "Priority") "iFC priority" 0 INT32_MAX with
  | .ok true, some as, .ok priority =>
    (as.first_node "ServerName").map (fun server_name =>
      (priority, String.mk (c_str server_name.value)))
  | _, _, _ => none

/-- The integer a text denotes in decimal notation, if it is one: white space may lead,
one sign may precede the digits, there is at least one digit and nothing follows the
digits. -/
def decimal_integer (text : List Char) : Option Int :=
  let signed := split_sign (text.dropWhile isspace)
  if signed.2.isEmpty || !signed.2.all isdigit then none
  else if signed.1 then some (-(decimal_value signed.2 : Int))
  else some (decimal_value signed.2 : Int)

/-- Whether a `Priority` text is a decimal integer in 0..2147483647. -/
def valid_priority_text (text : List Char) : Bool :=
  match decimal_integer text with
  | none => false
  | some n => decide (0 ≤ n) && decide (n ≤ 2147483647)

/-- The group ids an SPT lists itself: the values of its own `Group` children. -/
def spt_group_ids : List xml_node → Except ifc_error (List Int)
  | [] => .ok []
  | group_node :: rest =>
    match parse_integer (some group_node) "Group ID" 0 INT32_MAX, spt_group_ids rest with
    | .ok g, .ok gs => .ok (g :: gs)
    | .error err, _ => .error err
    | _, .error err => .error err

/-- The group ids and the value (predicate result XOR negation) of each SPT of a list. -/
def spt_values {SessionCase Msg : Type}
    (spt_matches : SessionCase → Msg → xml_node → Except ifc_error Bool)
    (session_case : SessionCase) (msg : Msg) : List xml_node → Except ifc_error (List (List Int × Bool))
  | [] => .ok []
  | spt :: rest =>
    let negated : Bool :=
      match spt.first_node "ConditionNegated" with
      | none => false
      | some neg_node =>
        let text := c_str neg_node.value
        text == "true".toList || text == "1".toList
    match spt_matches session_case msg spt, spt_group_ids (spt.child_nodes "Group"),
        spt_values spt_matches session_case msg rest with
    | .ok raw, .ok ids, .ok others => .ok ((ids, raw != negated) :: others)
    | .error err, _, _ => .error err
    | _, .error err, _ => .error err
    | _, _, .error err => .error err

/-- The reference verdict of a trigger whose SPTs have the given group ids and values:
in CNF every group id that occurs has a member SPT whose value is true; in DNF some
group id that occurs has all of its member SPTs true. -/
def reference_verdict (cnf : Bool) (spts : List (List Int × Bool)) : Bool :=
  let ids := (spts.map Prod.fst).flatten
  if cnf then ids.all (fun g => spts.any (fun s => s.1.contains g && s.2))
  else ids.any (fun g => spts.all (fun s => !s.1.contains g || s.2))

/-- Successive multimap insertion of a list of entries. -/
def insert_all (entries : List (Int × String)) (as_map : AsMap) : AsMap :=
  entries.foldl (fun m e => multimap_insert m e.1 e.2) as_map

/-! ## Sample documents -/

/-- An element with text content and no child element. -/
def leaf (name text : String) : xml_node := .mk name text []

/-- An element with child elements only. -/
def elem (name : String) (children : List xml_node) : xml_node := .mk name "" children

/-- A predicate body for the examples: an SPT matches when its `Method` child names the
request method `msg`; an SPT without a `Method` cannot be evaluated. -/
def method_spt_matches (_ : Unit) (msg : String) (spt : xml_node) : Except ifc_error Bool :=
  match spt.first_node "Method" with
  | none => .error ⟨"unsupported SPT"⟩
  | some m => .ok (m.value == msg)

/-- A document parser given by a finite table of texts and their trees; any other text
is a parse error. -/
def table_parse (table : List (String × xml_document)) (text : String) :
    Except String xml_document :=
  match table.find? (fun e => e.1 == text) with
  | some e => .ok e.2
  | none => .error "expected <"

/-- An `SPT` element with the given `Group` entries and a `Method` predicate. -/
def sample_spt (groups : List String) (method : String) : xml_node :=
  elem "SPT" (groups.map (leaf "Group") ++ [leaf "Method" method])

/-- A `TriggerPoint` element. -/
def sample_trigger (cnf : String) (spts : List xml_node) : xml_node :=
  elem "TriggerPoint" (leaf "ConditionTypeCNF" cnf :: spts)

/-- An unconditional criterion with the given priority text and server name. -/
def sample_ifc (priority server : String) : xml_node :=
  elem "InitialFilterCriteria"
    [leaf "Priority" priority, elem "ApplicationServer" [leaf "ServerName" server]]

/-- A `ServiceProfile` document with the given children. -/
def sample_doc (children : List xml_node) : xml_document :=
  ⟨[elem "ServiceProfile" children]⟩

/-- The criterion of application server A, priority 2, unconditional. -/
def ifc_a : xml_node := sample_ifc "2" "sip:as-a"

/-- The criterion of application server B, priority 1, unconditional. -/
def ifc_b : xml_node := sample_ifc "1" "sip:as-b"

/-- A criterion whose `ProfilePartIndicator` is not a number: evaluating it faults. -/
def ifc_faulty : xml_node :=
  elem "InitialFilterCriteria"
    [leaf "Priority" "0", leaf "ProfilePartIndicator" "maybe",
      elem "ApplicationServer" [leaf "ServerName" "sip:as-x"]]

/-- An unconditional criterion without an `ApplicationServer`. -/
def ifc_no_as : xml_node := elem "InitialFilterCriteria" [leaf "Priority" "0"]

/-- An unconditional criterion whose `Priority` has trailing characters. -/
def ifc_bad_priority : xml_node := sample_ifc "12a" "sip:as-x"

/-- A registered-only criterion whose `TriggerPoint` lacks its `ConditionTypeCNF`. -/
def ifc_registered_only : xml_node :=
  elem "InitialFilterCriteria"
    [leaf "Priority" "0", leaf "ProfilePartIndicator" "0",
      elem "TriggerPoint" [sample_spt ["0"] "INVITE"],
      elem "ApplicationServer" [leaf "ServerName" "sip:as-x"]]

/-- The sample parser: five document texts and their trees. -/
def sample_parse : String → Except String xml_document :=
  table_parse
    [("<ServiceProfile>A B</ServiceProfile>", sample_doc [ifc_a, ifc_b]),
     ("<ServiceProfile>A faulty B</ServiceProfile>", sample_doc [ifc_a, ifc_faulty, ifc_b]),
     ("<ServiceProfile>A no-as B</ServiceProfile>", sample_doc [ifc_a, ifc_no_as, ifc_b]),
     ("<ServiceProfile>A bad-priority B</ServiceProfile>",
        sample_doc [ifc_a, ifc_bad_priority, ifc_b]),
     ("<Profile/>", ⟨[elem "Profile" []]⟩)]

/-- An unregistered-only criterion without a `TriggerPoint`. -/
def ifc_unregistered_only : xml_node :=
  elem "InitialFilterCriteria"
    [leaf "Priority" "0", leaf "ProfilePartIndicator" "1",
      elem "ApplicationServer" [leaf "ServerName" "sip:as-x"]]

/-- A predicate body that can never be evaluated. -/
def failing_spt_matches (_ : Unit) (_ : String) (_ : xml_node) : Except ifc_error Bool :=
  .error ⟨"unsupported SPT"⟩

/-- A criterion whose trigger has two SPTs, the first in group 0 and the second in
group 1; for an INVITE the first is true and the second false. -/
def ifc_two_groups (cnf : String) : xml_node :=
  elem "InitialFilterCriteria"
    [leaf "Priority" "0",
      sample_trigger cnf [sample_spt ["0"] "INVITE", sample_spt ["1"] "REGISTER"],
      elem "ApplicationServer" [leaf "ServerName" "sip:as-x"]]

/-- A criterion whose trigger has one SPT, in group 0, testing for the given method. -/
def ifc_one_spt (cnf method : String) : xml_node :=
  elem "InitialFilterCriteria"
    [leaf "Priority" "0", sample_trigger cnf [sample_spt ["0"] method],
      elem "ApplicationServer" [leaf "ServerName" "sip:as-x"]]

/-- A criterion whose `TriggerPoint` has a `Group` child of its own next to the given
SPTs. -/
def ifc_stray_group (cnf : String) (spts : List xml_node) : xml_node :=
  elem "InitialFilterCriteria"
    [leaf "Priority" "0",
      elem "TriggerPoint" (leaf "ConditionTypeCNF" cnf :: leaf "Group" "7" :: spts),
      elem "ApplicationServer" [leaf "ServerName" "sip:as-x"]]

/-! ## `IfcHandler::lookup_ifcs` and the served user -/

/-- The pjsip and `PJUtils` operations the handler calls on a `pjsip_uri`; they are
library code and code outside `ifchandler.cpp`, taken as given over an abstract URI type.
`sip_uri_init secure user host` is the local `pjsip_sip_uri` after `pjsip_sip_uri_init`
and the two assignments of `user` and `host`. -/
structure uri_ops (Uri : Type) where
  pjsip_uri_get_uri : Uri → Uri
  is_home_domain : Uri → Bool
  is_uri_local : Uri → Bool
  scheme_is_sip : Uri → Bool
  scheme_is_sips : Uri → Bool
  sip_user : Uri → String
  sip_host : Uri → String
  sip_uri_init : Bool → String → String → Uri
  uri_to_string : Uri → String

/-- A `pjsip_msg` as far as the handler reads it: `PJSIP_MSG_FROM_HDR(msg)->uri` and
`msg->line.req.uri`. -/
structure pjsip_msg (Uri : Type) where
  from_hdr_uri : Uri
  req_uri : Uri

/-- Determines the user ID string from a URI. -/
def user_from_uri {Uri : Type} (ops : uri_ops Uri) (uri : Uri) : String :=
  let base := ops.pjsip_uri_get_uri uri
  let stripped :=
    if ops.scheme_is_sip base then
      ops.sip_uri_init (ops.scheme_is_sips base) (ops.sip_user base) (ops.sip_host base)
    else base
  ops.uri_to_string stripped

/-- Extracts the served user from a SIP message. Behaviour depends on the session case. -/
def served_user_from_msg {SessionCase Uri : Type} (ops : uri_ops Uri)
    (is_originating : SessionCase → Bool) (session_case : SessionCase) (msg : pjsip_msg Uri) :
    String :=
  let selected := if is_originating session_case then msg.from_hdr_uri else msg.req_uri
  let uri := ops.pjsip_uri_get_uri selected
  if ops.is_home_domain uri || ops.is_uri_local uri then user_from_uri ops uri else ""

/-- Get the served user and list of application servers that should apply to this
message. The result is the pair of the two output parameters `served_user` and
`application_servers` after the call. `get_user_ifc` is the HSS connection: whether a
filter document was found, and its text. `is_registered`, which the source uses without
declaring it, is a parameter. -/
def lookup_ifcs {SessionCase Uri Trail : Type} (ops : uri_ops Uri)
    (is_originating : SessionCase → Bool)
    (get_user_ifc : String → Trail → Bool × String)
    (parse : String → Except String xml_document)
    (spt_matches : SessionCase → pjsip_msg Uri → xml_node → Except ifc_error Bool)
    (is_registered : Bool) (session_case : SessionCase) (msg : pjsip_msg Uri) (trail : Trail)
    (application_servers : List String) : Except ifc_error (String × List String) :=
  let served_user := served_user_from_msg ops is_originating session_case msg
  if served_user = "" then .ok (served_user, application_servers)
  else
    let found := get_user_ifc served_user trail
    if found.1 = false then .ok (served_user, application_servers)
    else
      match calculate_application_servers parse spt_matches session_case is_registered msg
          found.2 application_servers with
      | .error err => .error err
      | .ok as_list => .ok (served_user, as_list)

/-! ## Samples for the served user -/

/-- A sample URI: an optional display-name wrapper around scheme, user, host and
parameters. -/
structure sample_uri where
  wrapped : Bool
  scheme : String
  user : String
  host : String
  params : String

/-- The sample URI operations for the home domain `home`; no URI is local otherwise. -/
def sample_ops (home : String) : uri_ops sample_uri where
  pjsip_uri_get_uri := fun u => ⟨false, u.scheme, u.user, u.host, u.params⟩
  is_home_domain := fun u => u.host == home
  is_uri_local := fun _ => false
  scheme_is_sip := fun u => u.scheme == "sip"
  scheme_is_sips := fun u => u.scheme == "sips"
  sip_user := fun u => u.user
  sip_host := fun u => u.host
  sip_uri_init := fun secure user host => ⟨false, if secure then "sips" else "sip", user, host, ""⟩
  uri_to_string := fun u => u.scheme ++ ":" ++ u.user ++ "@" ++ u.host ++ u.params

/-- A request from alice at the home domain to bob at another domain. -/
def sample_msg : pjsip_msg sample_uri :=
  ⟨⟨true, "sip", "alice", "home.example", ";tag=1"⟩, ⟨false, "sip", "bob", "far.example", ""⟩⟩

/-- A predicate body over sample messages that can never be evaluated. -/
def failing_msg_spt_matches (_ : Bool) (_ : pjsip_msg sample_uri) (_ : xml_node) :
    Except ifc_error Bool :=
  .error ⟨"unsupported SPT"⟩

/-- A criterion without `ProfilePartIndicator` and without `TriggerPoint`. -/
def ifc_unconditional : xml_node := sample_ifc "3" "sip:as-c"

/-- A criterion whose `TriggerPoint` holds the given `ConditionTypeCNF` and no SPT. -/
def ifc_empty_trigger (cnf : String) : xml_node :=
  elem "InitialFilterCriteria"
    [leaf "Priority" "0", sample_trigger cnf [],
      elem "ApplicationServer" [leaf "ServerName" "sip:as-x"]]

/-! ## Number translation (ENUM)

The ENUM services are exercised by `enumservice_test.cpp`; their implementation
(`enumservice.cpp`) is not among the sources, so the definitions of this section are
modelled from the specification and agree with what the tests expect. -/

/-- Modelled from the spec: the stripping pass of number normalization, missing with
`enumservice.cpp`. Every character that is not a digit or a leading `+` is dropped;
`at_start` tells whether the character at hand is the first one of the input. -/
def strip_number : Bool → List Char → List Char
  | _, [] => []
  | at_start, c :: cs =>
    if isdigit c || (at_start && c == '+') then c :: strip_number false cs
    else strip_number false cs

/-- Modelled from the spec: number normalization, shared by both translation backends
(missing with `enumservice.cpp`). -/
def normalize_number (user : String) : String :=
  String.mk (strip_number true user.toList)

/-- Modelled from the spec: the common contract of the two translation services (missing
with `enumservice.cpp`): the input is normalized, an empty normalized number gives the
output `empty` without consulting the backend, any other is handed to the backend. -/
def translate {α : Type} (backend : String → α) (empty : α) (user : String) : α :=
  if normalize_number user = "" then empty else backend (normalize_number user)

/-- Whether the first list is an initial segment of the second. -/
def starts_with : List Char → List Char → Bool
  | [], _ => true
  | _ :: _, [] => false
  | a :: as, b :: bs => a == b && starts_with as bs

/-- Modelled from the spec: a static number block of the JSON ruleset (missing with
`enumservice.cpp`): the digit-string key `pfx` (the block's prefix), the optional match
regex with its replacement template, and the target domain. -/
structure number_block where
  pfx : String
  rule : Option (String × String)
  target_domain : String

/-- Modelled from the spec: the search of the static-block backend (missing with
`enumservice.cpp`) for the longest configured key that starts the number; `best` is the
block found so far, replaced only by a strictly longer one, so that the first loaded wins
among equally long keys. -/
def scan_blocks (number : String) : List number_block → Option number_block → Option number_block
  | [], best => best
  | b :: rest, best =>
    if starts_with b.pfx.toList number.toList &&
        (match best with
          | none => true
          | some c => decide (c.pfx.length < b.pfx.length)) then
      scan_blocks number rest (some b)
    else scan_blocks number rest best

/-- Modelled from the spec: the static-block backend on a normalized number (missing
with `enumservice.cpp`). `apply_block b number` is the destination the match/replace rule
and target domain of block `b` give for the number, `none` when its regex fails to
compile or to match; no matching block, or a failing rule, gives the empty string. -/
def static_backend (apply_block : number_block → String → Option String)
    (blocks : List number_block) (number : String) : String :=
  match scan_blocks number blocks none with
  | none => ""
  | some b => (apply_block b number).getD ""

/-- Modelled from the spec: the call `JSONEnumService::lookup_uri_from_user` of the tests
(missing with `enumservice.cpp`), over the blocks loaded at construction. -/
def JSONEnumService.lookup_uri_from_user (apply_block : number_block → String → Option String)
    (blocks : List number_block) (user : String) : String :=
  translate (static_backend apply_block blocks) "" user

/-- Modelled from the spec: a NAPTR-style reply record, with the fields of the
`ares_naptr_reply` initializers of the tests; a reply is the list of its records in
reply order. -/
structure ares_naptr_reply where
  flags : String
  service : String
  regexp : String
  replacement : String
  order : Nat
  preference : Nat

/-- Modelled from the spec: what the flags of a DNS rule denote. -/
inductive rule_kind where
  | terminal
  | non_terminal
  | invalid

/-- Modelled from the spec: the reading of a record's flags (missing with
`enumservice.cpp`); the tests write `u` for a terminal rule and the empty string for a
non-terminal one, any other flag is invalid. -/
def flags_kind (flags : String) : rule_kind :=
  if flags = "u" then .terminal else if flags = "" then .non_terminal else .invalid

/-- Modelled from the spec: whether a reply record takes part in the translation
(missing with `enumservice.cpp`): its service is exactly `e2u+sip` or `e2u+pstn:sip` and
its flags are terminal or non-terminal. -/
def eligible (r : ares_naptr_reply) : Bool :=
  match flags_kind r.flags with
  | .invalid => false
  | _ => r.service == "e2u+sip" || r.service == "e2u+pstn:sip"

/-- Modelled from the spec: `(order, preference)` of `a` is at most that of `b`. -/
def rule_le (a b : ares_naptr_reply) : Bool :=
  decide (a.order < b.order) || (decide (a.order = b.order) && decide (a.preference ≤ b.preference))

/-- Modelled from the spec: insertion of a record that came before all of `rules` in
the reply: it goes in front of the first rule that is not below it. -/
def insert_rule (r : ares_naptr_reply) : List ares_naptr_reply → List ares_naptr_reply
  | [] => [r]
  | x :: xs => if rule_le r x then r :: x :: xs else x :: insert_rule r xs

/-- Modelled from the spec: the records in ascending `(order, preference)`, ties in
reply order (missing with `enumservice.cpp`). -/
def sort_rules : List ares_naptr_reply → List ares_naptr_reply
  | [] => []
  | r :: rs => insert_rule r (sort_rules rs)

/-- The outcome of a regex match-and-replace: the regex does not compile, it does not
match, or the rewritten string. -/
inductive regex_result where
  | invalid
  | no_match
  | replaced (s : String)

/-- The fields of a delimited string, the delimiter being `d`. -/
def split_fields (d : Char) : List Char → List (List Char)
  | [] => [[]]
  | c :: cs =>
    if c = d then [] :: split_fields d cs
    else
      match split_fields d cs with
      | [] => [[c]]
      | f :: fs => (c :: f) :: fs

/-- Modelled from the spec: the three fields of a rewrite string (missing with
`enumservice.cpp`): its first character is the delimiter, and match regex, replacement
template and discard field follow; any other field count is malformed. -/
def rewrite_fields (regexp : String) : Option (String × String × String) :=
  match regexp.toList with
  | [] => none
  | d :: rest =>
    match split_fields d rest with
    | [pattern, template, discard] =>
      some (String.mk pattern, String.mk template, String.mk discard)
    | _ => none

/-- Modelled from the spec: the rewrite of a record applied to a string (missing with
`enumservice.cpp`); `regex pattern template subject` is the regex engine. A malformed
rewrite string, an invalid regex and a failed match all give `none`. -/
def apply_rewrite (regex : String → String → String → regex_result) (r : ares_naptr_reply)
    (subject : String) : Option String :=
  match rewrite_fields r.regexp with
  | none => none
  | some fields =>
    match regex fields.1 fields.2.1 subject with
    | .replaced s => some s
    | _ => none

/-- Modelled from the spec: the first of the rules, in the order given, whose rewrite
applies to the number, with the rewritten string (missing with `enumservice.cpp`). -/
def first_match (regex : String → String → String → regex_result) (number : String) :
    List ares_naptr_reply → Option (ares_naptr_reply × String)
  | [] => none
  | r :: rs =>
    match apply_rewrite regex r number with
    | some s => some (r, s)
    | none => first_match regex number rs

/-- Modelled from the spec: the domain name queried for a key (missing with
`enumservice.cpp`): the digits of the key in reverse order, one per label, followed by
the configured suffix. -/
def key_to_domain (key suffix : String) : String :=
  String.mk (List.intersperse '.' (key.toList.filter isdigit).reverse ++ suffix.toList)

/-- Modelled from the spec: the bound on the DNS queries of one translation. -/
def MAX_DNS_QUERIES : Nat := 5

/-- Modelled from the spec: the query loop of the DNS-chain backend (missing with
`enumservice.cpp`), with `budget` queries left and `queries` issued so far; the result
is the destination and the number of queries issued. `dns name` is the reply of the
resolver, `none` when there is none. The rewrite of the first applicable rule is applied
to the normalized number, as `NonTerminalRuleTest` expects; a terminal rule ends the
translation, a non-terminal one makes its result the next key. -/
def dns_chain (regex : String → String → String → regex_result)
    (dns : String → Option (List ares_naptr_reply)) (suffix number : String) :
    Nat → String → Nat → String × Nat
  | 0, _, queries => ("", queries)
  | budget + 1, key, queries =>
    match dns (key_to_domain key suffix) with
    | none => ("", queries + 1)
    | some reply =>
      match first_match regex number (sort_rules (reply.filter eligible)) with
      | none => ("", queries + 1)
      | some found =>
        match flags_kind found.1.flags with
        | .terminal => (found.2, queries + 1)
        | _ => dns_chain regex dns suffix number budget found.2 (queries + 1)

/-- Modelled from the spec: the DNS-chain backend on a normalized number (missing with
`enumservice.cpp`): the destination and the number of DNS queries issued. -/
def dns_backend (regex : String → String → String → regex_result)
    (dns : String → Option (List ares_naptr_reply)) (suffix number : String) : String × Nat :=
  dns_chain regex dns suffix number MAX_DNS_QUERIES number 0

/-- Modelled from the spec: the call `DNSEnumService::lookup_uri_from_user` of the tests
(missing with `enumservice.cpp`), with the number of DNS queries it issues. -/
def DNSEnumService.lookup_uri_from_user (regex : String → String → String → regex_result)
    (dns : String → Option (List ares_naptr_reply)) (suffix user : String) : String × Nat :=
  translate (dns_backend regex dns suffix) ("", 0) user

/-! ## Samples for number translation -/

/-- The replacement template with each backreference to group 1 replaced by `group`. -/
def substitute_group (group : List Char) : List Char → List Char
  | [] => []
  | [c] => [c]
  | c :: d :: t =>
    if c = '\\' ∧ d = '1' then group ++ substitute_group group t
    else c :: substitute_group group (d :: t)

/-- A regex engine for the patterns of the tests: `(^.*$)` matches every subject and
captures it, `(` does not compile, any other pattern is taken literally and matches the
subject equal to it. -/
def sample_regex (pattern template subject : String) : regex_result :=
  if pattern = "(^.*$)" then
    .replaced (String.mk (substitute_group subject.toList template.toList))
  else if pattern = "(" then .invalid
  else if pattern = subject then .replaced template
  else .no_match

/-- A resolver given by a table of domain names and replies, like the database of the
fake resolver of the tests. -/
def table_dns (table : List (String × List ares_naptr_reply)) (name : String) :
    Option (List ares_naptr_reply) :=
  (table.find? (fun e => e.1 == name)).map Prod.snd

/-- The reply of `LoopingRuleTest`: a non-terminal rule that rewrites the number to
itself. -/
def looping_reply : List ares_naptr_reply :=
  [⟨"", "e2u+sip", "!(^.*$)!\\1!", ".", 1, 1⟩]

/-- A resolver that answers every query with the looping reply. -/
def looping_dns (_ : String) : Option (List ares_naptr_reply) := some looping_reply

/-- The reply of `OrderPriorityTest`: three terminal rules in the order (2,1), (1,2),
(1,1). -/
def order_priority_reply : List ares_naptr_reply :=
  [⟨"u", "e2u+sip", "!(^.*$)!sip:\\1@ut3.cw-ngv.com!", ".", 2, 1⟩,
   ⟨"u", "e2u+sip", "!(^.*$)!sip:\\1@ut2.cw-ngv.com!", ".", 1, 2⟩,
   ⟨"u", "e2u+sip", "!(^.*$)!sip:\\1@ut.cw-ngv.com!", ".", 1, 1⟩]

/-- The reply of `InvalidTypeTest`: one record of service `e2u+tel`. -/
def invalid_type_reply : List ares_naptr_reply :=
  [⟨"u", "e2u+tel", "!(^.*$)!tel:\\1@ut.cw-ngv.com!", ".", 1, 1⟩]

/-- The reply of `InvalidFlagsTest`: one record of flags `foo`. -/
def invalid_flags_reply : List ares_naptr_reply :=
  [⟨"foo", "e2u+sip", "!(^.*$)!sip:\\1@ut.cw-ngv.com!", ".", 1, 1⟩]

/-- Two number blocks, the key of the first starting the key of the second. -/
def sample_blocks : List number_block :=
  [⟨"+1", none, "utext.cw-ngv.com"⟩, ⟨"+15108580271", none, "ut.cw-ngv.com"⟩]

/-- A block application for the examples: the SIP URI of the number at the target
domain. -/
def sample_apply_block (b : number_block) (number : String) : Option String :=
  some ("sip:" ++ number ++ "@" ++ b.target_domain)

/-! ## The value of an SPT and the folded verdict -/

/-- Whether an SPT is negated, as the SPT loop of `filter_matches` reads it: false
without a `ConditionNegated` child, otherwise what `parse_bool` makes of that child. -/
def spt_negated (spt : xml_node) : Bool :=
  match spt.first_node "ConditionNegated" with
  | none => false
  | some neg_node =>
    c_str neg_node.value == "true".toList || c_str neg_node.value == "1".toList

/-- The value `val` the SPT loop of `filter_matches` computes for one SPT, or the fault
of its predicate. -/
def spt_value {SessionCase Msg : Type}
    (spt_matches : SessionCase → Msg → xml_node → Except ifc_error Bool)
    (session_case : SessionCase) (msg : Msg) (spt : xml_node) : Except ifc_error Bool :=
  match spt_matches session_case msg spt with
  | .error err => .error err
  | .ok raw => .ok (raw != spt_negated spt)

/-- The value of a result that is known not to be a fault. -/
def value_of (r : Except ifc_error Bool) : Bool :=
  match r with
  | .ok v => v
  | .error _ => false

/-- Whether every node of a list holds a valid group id. -/
def group_ids_valid (nodes : List xml_node) : Bool :=
  nodes.all (fun n => (parse_integer (some n) "Group ID" 0 INT32_MAX).toBool)

/-- Whether some node of a list holds the group id `k`. -/
def has_group_id (nodes : List xml_node) (k : Int) : Prop :=
  ∃ n ∈ nodes, parse_integer (some n) "Group ID" 0 INT32_MAX = .ok k

/-- The new content of a group accumulator when `val` is folded into it. -/
def merge_value (cnf : Bool) (acc : Option Bool) (val : Bool) : Bool :=
  match acc with
  | none => val
  | some cur => if cnf then (cur || val) else (cur && val)

/-- The verdict the two loops of `filter_matches` arrive at, in closed form: the SPT
values are `vals`, and `no_groups` tells that the inner loop finds no `Group` node. With
no SPT or no group the verdict is the `ConditionTypeCNF` flag; otherwise every group
holds the disjunction (CNF) or conjunction (DNF) of all the values. -/
def folded_verdict (cnf : Bool) (vals : List Bool) (no_groups : Bool) : Bool :=
  if vals.isEmpty || no_groups then cnf
  else if cnf then vals.any id else vals.all id

/-- An `SPT` element with a `ConditionNegated` child and a `Method` predicate. -/
def sample_spt_negated (negated method : String) : xml_node :=
  elem "SPT" [leaf "ConditionNegated" negated, leaf "Method" method]

/-- A matching criterion with an `ApplicationServer` and no `Priority`. -/
def ifc_no_priority : xml_node :=
  elem "InitialFilterCriteria" [elem "ApplicationServer" [leaf "ServerName" "sip:as-x"]]

/-- A criterion whose `TriggerPoint` has no `ConditionTypeCNF`. -/
def ifc_no_cnf : xml_node :=
  elem "InitialFilterCriteria"
    [leaf "Priority" "0", elem "TriggerPoint" [sample_spt ["0"] "INVITE"],
      elem "ApplicationServer" [leaf "ServerName" "sip:as-x"]]

/-- The outcome of the `ProfilePartIndicator` test at the head of `filter_matches`:
whether an indicator is present and disagrees with `is_registered`, or the fault of
parsing it. -/
def indicator_disagrees (ifc : xml_node) (is_registered : Bool) : Except ifc_error Bool :=
  match ifc.first_node "ProfilePartIndicator" with
  | none => .ok false
  | some profile_part_indicator =>
    match parse_integer (some profile_part_indicator) "ProfilePartIndicator" 0 1 with
    | .error err => .error err
    | .ok n => .ok ((n == 0) != is_registered)

/-- The order of a group map: keys strictly ascend. -/
def keys_strict (m : GroupMap) : Prop := m.Pairwise (fun a b => a.1 < b.1)

/-- The state of a group map between two SPTs: every group id of the `Group` nodes holds
`acc`, and no other key is present. -/
def groups_hold (nodes : List xml_node) (m : GroupMap) (acc : Option Bool) : Prop :=
  keys_strict m ∧ (∀ k, has_group_id nodes k → map_find m k = acc) ∧
    (∀ k, ¬ has_group_id nodes k → map_find m k = none)

/-- A criterion whose `TriggerPoint` holds `Group` 7 and `Group` 9 of its own, in the
given order, next to the given SPTs. -/
def ifc_trigger_groups (cnf : String) (groups spts : List xml_node) : xml_node :=
  elem "InitialFilterCriteria"
    [leaf "Priority" "0",
      elem "TriggerPoint" (leaf "ConditionTypeCNF" cnf :: (groups ++ spts)),
      elem "ApplicationServer" [leaf "ServerName" "sip:as-x"]]

/-! ## Number translation: loading the static ruleset -/

/-- Modelled from the spec: a parsed JSON document, as far as the loading of the static
ruleset looks at it (the JSON library and `enumservice.cpp` are not among the
sources). -/
inductive json_value where
  | null
  | bool (b : Bool)
  | number (n : Int)
  | string (s : String)
  | array (items : List json_value)
  | object (members : List (String × json_value))

/-- Modelled from the spec: the member of a JSON object under a key, if the value is an
object and has one. -/
def json_value.member (v : json_value) (key : String) : Option json_value :=
  match v with
  | .object members => (members.find? (fun e => e.1 == key)).map Prod.snd
  | _ => none

/-- Modelled from the spec: the construction of the static-block service from its
configuration file (the constructor of `JSONEnumService`, missing with
`enumservice.cpp`): the blocks it holds afterwards, or the error it raises.
`read_file` and `parse_json` are the file system and the JSON parser, `decode_block`
reads one number block and gives `none` for a badly formed one, which is skipped. An
unreadable file, a parse error and a document without the `number_blocks` container all
leave the service without rules. -/
def JSONEnumService.load (read_file : String → Except String String)
    (parse_json : String → Except String json_value)
    (decode_block : json_value → Option number_block) (path : String) :
    Except String (List number_block) :=
  match read_file path with
  | .error _ => .ok []
  | .ok text =>
    match parse_json text with
    | .error _ => .ok []
    | .ok root =>
      match root.member "number_blocks" with
      | some (.array items) => .ok (items.filterMap decode_block)
      | _ => .ok []

/-- Whether the rewrite of a record applies to the number. -/
def rewrite_applies (regex : String → String → String → regex_result) (number : String)
    (r : ares_naptr_reply) : Bool :=
  (apply_rewrite regex r number).isSome

/-! ## Further samples for number translation -/

/-- A file system with three configuration files: one that is not valid JSON, one
without the `number_blocks` container, and one with a catch-all block; any other path
cannot be read. -/
def sample_read_file (path : String) : Except String String :=
  if path = "test_enum_parse_error.json" then .ok "not json"
  else if path = "test_enum_missing_block.json" then .ok "no container"
  else if path = "test_enum.json" then .ok "one block"
  else .error "No such file or directory"

/-- A JSON parser for the three sample texts. -/
def sample_parse_json (text : String) : Except String json_value :=
  if text = "no container" then .ok (.object [("other", .array [])])
  else if text = "one block" then
    .ok (.object [("number_blocks", .array [.object [("domain", .string "198.147.226.2")]])])
  else .error "Syntax error"

/-- A block decoder for the samples: a catch-all block at the `domain` of the object. -/
def sample_decode_block (v : json_value) : Option number_block :=
  match v.member "domain" with
  | some (.string d) => some ⟨"", none, d⟩
  | _ => none

/-- The regex engine of the samples, extended by patterns of the form `(text)`, which
match the subject equal to `text` and capture it. -/
def test_regex (pattern template subject : String) : regex_result :=
  if pattern = "(" ++ subject ++ ")" then
    .replaced (String.mk (substitute_group subject.toList template.toList))
  else sample_regex pattern template subject

/-- The reply of `BasicTest`: one terminal rule that makes a SIP URI of the number. -/
def basic_naptr_reply : List ares_naptr_reply :=
  [⟨"u", "e2u+sip", "!(^.*$)!sip:\\1@ut.cw-ngv.com!", ".", 1, 1⟩]

/-- The database of `NonTerminalRuleTest`: a non-terminal rule from 1234 to 5678 at the
name of 1234, and the basic reply at the name of 5678. -/
def non_terminal_dns : String → Option (List ares_naptr_reply) :=
  table_dns
    [("4.3.2.1.e164.arpa", [⟨"", "e2u+sip", "!1234!5678!", ".", 1, 1⟩]),
     ("8.7.6.5.e164.arpa", basic_naptr_reply)]

/-- The reply of `MultipleRuleTest`: two terminal rules of equal order and preference,
for 1234 and for 5678. -/
def multiple_rule_reply : List ares_naptr_reply :=
  [⟨"u", "e2u+sip", "!(1234)!sip:\\1@ut.cw-ngv.com!", ".", 1, 1⟩,
   ⟨"u", "e2u+sip", "!(5678)!sip:\\1@ut2.cw-ngv.com!", ".", 1, 1⟩]

/-- The reply of `IncompleteRegexpTest`: a rewrite string of one field. -/
def incomplete_regexp_reply : List ares_naptr_reply :=
  [⟨"u", "e2u+sip", "!1234", ".", 1, 1⟩]

/-- The reply of `InvalidRegexpTest`: a rewrite string whose regex does not compile. -/
def invalid_regexp_reply : List ares_naptr_reply :=
  [⟨"u", "e2u+sip", "!(!!", ".", 1, 1⟩]

/-- The database of `LoopingRuleTest`: the looping reply at the name of 1234, and no
reply at any other name. -/
def looping_rule_dns : String → Option (List ares_naptr_reply) :=
  table_dns [("4.3.2.1.e164.arpa", looping_reply)]

/-- A reply like the looping one, whose record has the service `e2u+tel`. -/
def tel_looping_reply : List ares_naptr_reply :=
  [⟨"", "e2u+tel", "!(^.*$)!\\1!", ".", 1, 1⟩]

/-- A resolver that answers every query with the `e2u+tel` looping reply. -/
def tel_looping_dns (_ : String) : Option (List ares_naptr_reply) := some tel_looping_reply

/-! ## Lemmas on the multimap -/

theorem try_process_ifc {SessionCase Msg : Type}
    (spt_matches : SessionCase → Msg → xml_node → Except ifc_error Bool)
    (session_case : SessionCase) (is_registered : Bool) (msg : Msg) (ifc : xml_node)
    (as_map : AsMap) :
    try_catch (process_ifc spt_matches session_case is_registered msg ifc as_map)
        (fun _ => .ok as_map) =
      .ok (insert_all (recorded_entry spt_matches session_case is_registered msg ifc).toList
        as_map) := by
  unfold process_ifc recorded_entry
  dsimp only
  rcases filter_matches spt_matches session_case is_registered msg ifc with err | b
  · simp [try_catch, insert_all]
  · cases b
    · simp [try_catch, insert_all]
    · rcases ifc.first_node "ApplicationServer" with _ | as
      · simp [try_catch, insert_all]
      · rcases parse_integer (ifc.first_node "Priority") "iFC priority" 0 INT32_MAX with
          err | priority
        · simp [try_catch, insert_all]
        · cases hsn : as.first_node "ServerName" with
          | none => simp [hsn, try_catch, insert_all]
          | some server_name => simp [hsn, try_catch, insert_all]

theorem ifc_loop_eq {SessionCase Msg : Type}
    (spt_matches : SessionCase → Msg → xml_node → Except ifc_error Bool)
    (session_case : SessionCase) (is_registered : Bool) (msg : Msg) (ifcs : List xml_node)
    (as_map : AsMap) :
    ifc_loop spt_matches session_case is_registered msg ifcs as_map =
      .ok (insert_all
        (ifcs.filterMap (recorded_entry spt_matches session_case is_registered msg)) as_map) := by
  induction ifcs generalizing as_map with
  | nil => simp [ifc_loop, insert_all]
  | cons ifc rest ih =>
    simp only [ifc_loop, try_process_ifc, ih]
    rcases h : recorded_entry spt_matches session_case is_registered msg ifc with _ | e
    · simp [List.filterMap_cons, h, insert_all]
    · simp [List.filterMap_cons, h, insert_all]

theorem calculate_eq {SessionCase Msg : Type}
    (parse : String → Except String xml_document)
    (spt_matches : SessionCase → Msg → xml_node → Except ifc_error Bool)
    (session_case : SessionCase) (is_registered : Bool) (msg : Msg) (ifc_xml : String)
    (as_list : List String) :
    calculate_application_servers parse spt_matches session_case is_registered msg ifc_xml
        as_list =
      .ok (as_list ++ (insert_all ((criteria parse ifc_xml).filterMap
        (recorded_entry spt_matches session_case is_registered msg)) []).map Prod.snd) := by
  unfold calculate_application_servers criteria
  rcases (parse_or_clear parse ifc_xml).first_node "ServiceProfile" with _ | sp
  · simp [insert_all]
  · simp [ifc_loop_eq]

theorem criteria_of_profile (parse : String → Except String xml_document) (ifc_xml : String)
    (doc : xml_document) (n v : String) (cs : List xml_node)
    (hparse : parse ifc_xml = .ok doc)
    (hsp : doc.first_node "ServiceProfile" = some (xml_node.mk n v cs)) :
    criteria parse ifc_xml = cs.filter (fun c => c.name == "InitialFilterCriteria") := by
  simp [criteria, parse_or_clear, hparse, hsp, xml_node.child_nodes, xml_node.children]

/-- A criterion that records nothing can be removed from the profile without changing
the outcome of `calculate_application_servers`. -/
theorem calculate_skip {SessionCase Msg : Type}
    (parse : String → Except String xml_document)
    (spt_matches : SessionCase → Msg → xml_node → Except ifc_error Bool)
    (session_case : SessionCase) (is_registered : Bool) (msg : Msg)
    (ifc_xml ifc_xml' : String) (doc doc' : xml_document) (n v n' v' : String)
    (pre post : List xml_node) (c : xml_node) (as_list : List String)
    (hparse : parse ifc_xml = .ok doc)
    (hsp : doc.first_node "ServiceProfile" = some (xml_node.mk n v (pre ++ c :: post)))
    (hparse' : parse ifc_xml' = .ok doc')
    (hsp' : doc'.first_node "ServiceProfile" = some (xml_node.mk n' v' (pre ++ post)))
    (hnone : recorded_entry spt_matches session_case is_registered msg c = none) :
    calculate_application_servers parse spt_matches session_case is_registered msg ifc_xml
        as_list =
      calculate_application_servers parse spt_matches session_case is_registered msg
        ifc_xml' as_list := by
  rw [calculate_eq, calculate_eq, criteria_of_profile parse ifc_xml doc n v _ hparse hsp,
    criteria_of_profile parse ifc_xml' doc' n' v' _ hparse' hsp']
  congr 4
  simp only [List.filter_append, List.filterMap_append, List.filter_cons]
  congr 1
  split
  · simp [List.filterMap_cons, hnone]
  · rfl

/-! ## The claims -/

/-- C2: when evaluating one criterion of a profile faults (an `ifc_error` from
`filter_matches`, or from parsing its `Priority` once it matched and has an
`ApplicationServer`), `calculate_application_servers` gives the result it gives for the
same profile without that criterion. -/
theorem calculate_application_servers_fault_isolated {SessionCase Msg : Type}
    (parse : String → Except String xml_document)
    (spt_matches : SessionCase → Msg → xml_node → Except ifc_error Bool)
    (session_case : SessionCase) (is_registered : Bool) (msg : Msg)
    (ifc_xml ifc_xml' : String) (doc doc' : xml_document) (n v n' v' : String)
    (pre post : List xml_node) (c : xml_node) (as_list : List String)
    (hparse : parse ifc_xml = .ok doc)
    (hsp : doc.first_node "ServiceProfile" = some (xml_node.mk n v (pre ++ c :: post)))
    (hparse' : parse ifc_xml' = .ok doc')
    (hsp' : doc'.first_node "ServiceProfile" = some (xml_node.mk n' v' (pre ++ post)))
    (hfault : (∃ err, filter_matches spt_matches session_case is_registered msg c = .error err) ∨
      (filter_matches spt_matches session_case is_registered msg c = .ok true ∧
        (c.first_node "ApplicationServer").isSome = true ∧
        ∃ err, parse_integer (c.first_node "Priority") "iFC priority" 0 INT32_MAX =
          .error err)) :
    calculate_application_servers parse spt_matches session_case is_registered msg ifc_xml
        as_list =
      calculate_application_servers parse spt_matches session_case is_registered msg
        ifc_xml' as_list := by
  apply calculate_skip parse spt_matches session_case is_registered msg ifc_xml ifc_xml' doc
    doc' n v n' v' pre post c as_list hparse hsp hparse' hsp'
  unfold recorded_entry
  rcases hfault with ⟨err, h⟩ | ⟨_, _, err, h⟩
  · simp [h]
  · simp [h]

/-- C2 at the sample profile A, faulty, B: the result is that of the profile A, B. -/
theorem calculate_application_servers_fault_isolated_witness :
    calculate_application_servers sample_parse method_spt_matches () true "INVITE"
        "<ServiceProfile>A faulty B</ServiceProfile>" [] =
      calculate_application_servers sample_parse method_spt_matches () true "INVITE"
        "<ServiceProfile>A B</ServiceProfile>" [] :=
  calculate_application_servers_fault_isolated sample_parse method_spt_matches () true
    "INVITE" "<ServiceProfile>A faulty B</ServiceProfile>"
    "<ServiceProfile>A B</ServiceProfile>" (sample_doc [ifc_a, ifc_faulty, ifc_b])
    (sample_doc [ifc_a, ifc_b]) "ServiceProfile" "" "ServiceProfile" "" [ifc_a] [ifc_b]
    ifc_faulty [] rfl rfl rfl rfl (Or.inl ⟨_, rfl⟩)

/-- C3: a criterion whose `ProfilePartIndicator` reads 0 (registered only) while
`is_registered` is false, or reads 1 (unregistered only) while `is_registered` is true,
makes `filter_matches` return false without a fault, whatever the predicate body does
and whatever the `TriggerPoint` holds. -/
theorem filter_matches_indicator_disagrees {SessionCase Msg : Type}
    (spt_matches : SessionCase → Msg → xml_node → Except ifc_error Bool)
    (session_case : SessionCase) (is_registered : Bool) (msg : Msg)
    (ifc profile_part_indicator : xml_node) (n : Int)
    (hnode : ifc.first_node "ProfilePartIndicator" = some profile_part_indicator)
    (hvalue : parse_integer (some profile_part_indicator) "ProfilePartIndicator" 0 1 = .ok n)
    (hdisagree : (n = 0 ∧ is_registered = false) ∨ (n = 1 ∧ is_registered = true)) :
    filter_matches spt_matches session_case is_registered msg ifc = .ok false := by
  unfold filter_matches
  rcases hdisagree with ⟨hn, hr⟩ | ⟨hn, hr⟩ <;> subst hn <;> subst hr <;>
    simp [hnode, hvalue]

/-- C3 at a registered-only criterion with a malformed trigger and an unregistered user,
and at an unregistered-only criterion and a registered user; the predicate body faults
whenever it is called. -/
theorem filter_matches_indicator_disagrees_witness :
    filter_matches failing_spt_matches () false "INVITE" ifc_registered_only = .ok false ∧
    filter_matches failing_spt_matches () true "INVITE" ifc_unregistered_only = .ok false :=
  ⟨filter_matches_indicator_disagrees failing_spt_matches () false "INVITE"
      ifc_registered_only (leaf "ProfilePartIndicator" "0") 0 rfl rfl (Or.inl ⟨rfl, rfl⟩),
   filter_matches_indicator_disagrees failing_spt_matches () true "INVITE"
      ifc_unregistered_only (leaf "ProfilePartIndicator" "1") 1 rfl rfl (Or.inr ⟨rfl, rfl⟩)⟩

/-- C8: when the text does not parse, or the parsed document has no top-level
`ServiceProfile`, `calculate_application_servers` called with an empty output list
returns the empty list and no exception. -/
theorem calculate_application_servers_invalid_document {SessionCase Msg : Type}
    (parse : String → Except String xml_document)
    (spt_matches : SessionCase → Msg → xml_node → Except ifc_error Bool)
    (session_case : SessionCase) (is_registered : Bool) (msg : Msg) (ifc_xml : String)
    (hinvalid : (∃ err, parse ifc_xml = .error err) ∨
      (∃ doc, parse ifc_xml = .ok doc ∧ doc.first_node "ServiceProfile" = none)) :
    calculate_application_servers parse spt_matches session_case is_registered msg ifc_xml
        [] = .ok [] := by
  unfold calculate_application_servers parse_or_clear
  rcases hinvalid with ⟨err, h⟩ | ⟨doc, h, hsp⟩
  · simp [h, xml_document.first_node]
  · simp [h, hsp]

/-- C8 at a text that does not parse and at a document whose root is not a
`ServiceProfile`. -/
theorem calculate_application_servers_invalid_document_witness :
    calculate_application_servers sample_parse method_spt_matches () true "INVITE"
        "<ServiceProfile" [] = .ok [] ∧
    calculate_application_servers sample_parse method_spt_matches () true "INVITE"
        "<Profile/>" [] = .ok [] :=
  ⟨calculate_application_servers_invalid_document sample_parse method_spt_matches () true
      "INVITE" "<ServiceProfile" (Or.inl ⟨_, rfl⟩),
   calculate_application_servers_invalid_document sample_parse method_spt_matches () true
      "INVITE" "<Profile/>" (Or.inr ⟨_, rfl, rfl⟩)⟩

/-- C9: a criterion without an `ApplicationServer`, or whose `ApplicationServer` has no
`ServerName`, adds no entry: `calculate_application_servers` gives the result it gives
for the same profile without that criterion. -/
theorem calculate_application_servers_no_target {SessionCase Msg : Type}
    (parse : String → Except String xml_document)
    (spt_matches : SessionCase → Msg → xml_node → Except ifc_error Bool)
    (session_case : SessionCase) (is_registered : Bool) (msg : Msg)
    (ifc_xml ifc_xml' : String) (doc doc' : xml_document) (n v n' v' : String)
    (pre post : List xml_node) (c : xml_node) (as_list : List String)
    (hparse : parse ifc_xml = .ok doc)
    (hsp : doc.first_node "ServiceProfile" = some (xml_node.mk n v (pre ++ c :: post)))
    (hparse' : parse ifc_xml' = .ok doc')
    (hsp' : doc'.first_node "ServiceProfile" = some (xml_node.mk n' v' (pre ++ post)))
    (htarget : c.first_node "ApplicationServer" = none ∨
      ∃ as, c.first_node "ApplicationServer" = some as ∧ as.first_node "ServerName" = none) :
    calculate_application_servers parse spt_matches session_case is_registered msg ifc_xml
        as_list =
      calculate_application_servers parse spt_matches session_case is_registered msg
        ifc_xml' as_list := by
  apply calculate_skip parse spt_matches session_case is_registered msg ifc_xml ifc_xml' doc
    doc' n v n' v' pre post c as_list hparse hsp hparse' hsp'
  unfold recorded_entry
  rcases htarget with h | ⟨as, h, hsn⟩
  · simp [h]
  · rw [h]
    split
    · rename_i has _
      cases has
      simp [hsn]
    · rfl

/-- C9 at the sample profile A, no-as, B, whose middle criterion matches and has no
`ApplicationServer`: the result is that of the profile A, B. -/
theorem calculate_application_servers_no_target_witness :
    calculate_application_servers sample_parse method_spt_matches () true "INVITE"
        "<ServiceProfile>A no-as B</ServiceProfile>" [] =
      calculate_application_servers sample_parse method_spt_matches () true "INVITE"
        "<ServiceProfile>A B</ServiceProfile>" [] :=
  calculate_application_servers_no_target sample_parse method_spt_matches () true
    "INVITE" "<ServiceProfile>A no-as B</ServiceProfile>"
    "<ServiceProfile>A B</ServiceProfile>" (sample_doc [ifc_a, ifc_no_as, ifc_b])
    (sample_doc [ifc_a, ifc_b]) "ServiceProfile" "" "ServiceProfile" "" [ifc_a] [ifc_b]
    ifc_no_as [] rfl rfl rfl rfl (Or.inl rfl)

/-! ## `parse_integer` and decimal texts -/

theorem clamp_long_in_range (v : Int) (h0 : 0 ≤ clamp_long v) (h1 : clamp_long v ≤ INT32_MAX) :
    clamp_long v = v := by
  unfold clamp_long at h0 h1 ⊢
  unfold LONG_MIN LONG_MAX at *
  unfold INT32_MAX at h1
  split_ifs at h0 h1 ⊢ <;> omega

theorem parse_integer_ok_valid (node : xml_node) (description : String) (n : Int)
    (h : parse_integer (some node) description 0 INT32_MAX = .ok n) :
    valid_priority_text (c_str node.value) = true := by
  unfold parse_integer at h
  simp only at h
  split_ifs at h with h1 h2
  push_neg at h1 h2
  obtain ⟨hne, hend⟩ := h1
  unfold strtol at hend h2
  simp only at hend h2
  by_cases hd : (split_sign ((c_str node.value).dropWhile isspace)).2.takeWhile isdigit = []
  · rw [if_pos hd] at hend
    exact absurd hend hne
  · rw [if_neg hd] at hend h2
    simp only at hend h2
    unfold valid_priority_text decimal_integer
    simp only
    generalize split_sign ((c_str node.value).dropWhile isspace) = st at hend h2 hd ⊢
    have hall : ∀ x ∈ st.2, isdigit x = true := List.dropWhile_eq_nil_iff.1 hend
    have htake : st.2.takeWhile isdigit = st.2 := List.takeWhile_eq_self_iff.2 hall
    rw [htake] at h2 hd
    have hall' : st.2.all isdigit = true := List.all_eq_true.2 hall
    have hemp : st.2.isEmpty = false := by
      cases hst : st.2 with
      | nil => exact absurd hst hd
      | cons a t => rfl
    have hv := clamp_long_in_range _ h2.1 h2.2
    rw [hv] at h2
    simp only [hall', hemp, Bool.not_true, Bool.or_self, Bool.false_eq_true, if_false]
    unfold INT32_MAX at h2
    split_ifs with hs
    · rw [if_pos hs] at h2
      simp only [decide_eq_true_eq, Bool.and_eq_true]
      exact h2
    · rw [if_neg hs] at h2
      simp only [decide_eq_true_eq, Bool.and_eq_true]
      exact h2

/-- Texts `parse_integer` refuses as a priority: empty, not numeric, with trailing
characters, negative, above 2147483647, and beyond the range of `long`. -/
theorem parse_integer_refuses :
    ∀ text ∈ ["", "abc", "12a", "-1", "2147483648", "99999999999999999999", "1 "],
      (parse_integer (some (leaf "Priority" text)) "iFC priority" 0 INT32_MAX).toBool =
        false := by
  decide

/-- C10: a criterion whose `Priority` text is not a decimal integer in 0..2147483647
(see `decimal_integer`) contributes nothing: `calculate_application_servers` gives the
result it gives for the same profile without that criterion, and that result is a list,
not an exception. -/
theorem calculate_application_servers_bad_priority {SessionCase Msg : Type}
    (parse : String → Except String xml_document)
    (spt_matches : SessionCase → Msg → xml_node → Except ifc_error Bool)
    (session_case : SessionCase) (is_registered : Bool) (msg : Msg)
    (ifc_xml ifc_xml' : String) (doc doc' : xml_document) (n v n' v' : String)
    (pre post : List xml_node) (c priority_node : xml_node) (as_list : List String)
    (hparse : parse ifc_xml = .ok doc)
    (hsp : doc.first_node "ServiceProfile" = some (xml_node.mk n v (pre ++ c :: post)))
    (hparse' : parse ifc_xml' = .ok doc')
    (hsp' : doc'.first_node "ServiceProfile" = some (xml_node.mk n' v' (pre ++ post)))
    (hpriority : c.first_node "Priority" = some priority_node)
    (hbad : valid_priority_text (c_str priority_node.value) = false) :
    calculate_application_servers parse spt_matches session_case is_registered msg ifc_xml
        as_list =
      calculate_application_servers parse spt_matches session_case is_registered msg
        ifc_xml' as_list ∧
    ∃ result, calculate_application_servers parse spt_matches session_case is_registered msg
        ifc_xml as_list = .ok result := by
  refine ⟨?_, _, calculate_eq parse spt_matches session_case is_registered msg ifc_xml
    as_list⟩
  apply calculate_skip parse spt_matches session_case is_registered msg ifc_xml ifc_xml' doc
    doc' n v n' v' pre post c as_list hparse hsp hparse' hsp'
  unfold recorded_entry
  rw [hpriority]
  cases hp : parse_integer (some priority_node) "iFC priority" 0 INT32_MAX with
  | error err => simp
  | ok p =>
    have := parse_integer_ok_valid priority_node "iFC priority" p hp
    rw [hbad] at this
    exact absurd this (by decide)

/-- C10 at the sample profile A, bad-priority, B, whose middle criterion matches, has an
`ApplicationServer` and the priority text 12a: the result is that of the profile A, B. -/
theorem calculate_application_servers_bad_priority_witness :
    calculate_application_servers sample_parse method_spt_matches () true "INVITE"
        "<ServiceProfile>A bad-priority B</ServiceProfile>" [] =
      calculate_application_servers sample_parse method_spt_matches () true "INVITE"
        "<ServiceProfile>A B</ServiceProfile>" [] ∧
    ∃ result, calculate_application_servers sample_parse method_spt_matches () true "INVITE"
        "<ServiceProfile>A bad-priority B</ServiceProfile>" [] = .ok result :=
  calculate_application_servers_bad_priority sample_parse method_spt_matches () true
    "INVITE" "<ServiceProfile>A bad-priority B</ServiceProfile>"
    "<ServiceProfile>A B</ServiceProfile>" (sample_doc [ifc_a, ifc_bad_priority, ifc_b])
    (sample_doc [ifc_a, ifc_b]) "ServiceProfile" "" "ServiceProfile" "" [ifc_a] [ifc_b]
    ifc_bad_priority (leaf "Priority" "12a") [] rfl rfl rfl rfl rfl rfl

/-! ## Group folding in `filter_matches` -/

/-- When the `TriggerPoint` has no `Group` child of its own, the SPT loop never touches
the group map, whatever groups the SPTs list. -/
theorem fold_spts_without_trigger_group {SessionCase Msg : Type}
    (spt_matches : SessionCase → Msg → xml_node → Except ifc_error Bool)
    (session_case : SessionCase) (msg : Msg) (trigger : xml_node) (cnf : Bool)
    (spts : List xml_node) (groups groups' : GroupMap)
    (hnone : trigger.child_nodes "Group" = [])
    (hok : fold_spts spt_matches session_case msg trigger cnf spts groups = .ok groups') :
    groups' = groups := by
  induction spts generalizing groups with
  | nil =>
    simp only [fold_spts, Except.ok.injEq] at hok
    exact hok.symm
  | cons spt rest ih =>
    simp only [fold_spts, hnone, fold_groups] at hok
    split at hok
    · cases hok
    · split at hok
      · cases hok
      · exact ih groups hok

/-- C4 (the code departs from the claim): for a trigger with group 0 all true and group
1 all false, `filter_matches` returns true in CNF and false in DNF, the opposite of the
claimed verdicts, because the inner loop reads the `Group` children of the
`TriggerPoint`, of which there are none, and never those of the SPT. -/
theorem filter_matches_two_groups_code :
    filter_matches method_spt_matches () true "INVITE" (ifc_two_groups "1") = .ok true ∧
    filter_matches method_spt_matches () true "INVITE" (ifc_two_groups "0") = .ok false :=
  ⟨rfl, rfl⟩

/-- C5 (the code departs from the claim): for a CNF trigger whose only SPT is in group 0
and is false, the reference verdict is false and `filter_matches` returns true; for the
DNF trigger whose only SPT is in group 0 and is true, the reference verdict is true and
`filter_matches` returns false. -/
theorem filter_matches_reference_code :
    filter_matches method_spt_matches () true "INVITE" (ifc_one_spt "1" "REGISTER") =
      .ok true ∧
    Except.map (reference_verdict true)
      (spt_values method_spt_matches () "INVITE" [sample_spt ["0"] "REGISTER"]) = .ok false ∧
    filter_matches method_spt_matches () true "INVITE" (ifc_one_spt "0" "INVITE") =
      .ok false ∧
    Except.map (reference_verdict false)
      (spt_values method_spt_matches () "INVITE" [sample_spt ["0"] "INVITE"]) = .ok true :=
  ⟨rfl, rfl, rfl, rfl⟩

/-- C6 (the code departs from the claim): the value of an SPT is folded into the groups
listed by the `Group` children of the `TriggerPoint`, not into its own. A true SPT that
lists group 0 leaves a DNF trigger false, as does the same SPT listing no group; and
with a `Group` 7 directly under the `TriggerPoint`, a true SPT that lists no group makes
the DNF trigger true, while removing that SPT makes it false. -/
theorem filter_matches_group_source_code :
    filter_matches method_spt_matches () true "INVITE" (ifc_one_spt "0" "INVITE") =
      filter_matches method_spt_matches () true "INVITE"
        (elem "InitialFilterCriteria" [sample_trigger "0" [sample_spt [] "INVITE"]]) ∧
    filter_matches method_spt_matches () true "INVITE"
        (ifc_stray_group "0" [sample_spt [] "INVITE"]) = .ok true ∧
    filter_matches method_spt_matches () true "INVITE" (ifc_stray_group "0" []) = .ok false :=
  ⟨rfl, rfl, rfl⟩

/-! ## Absent and empty triggers -/

/-- C11: for a criterion without a `TriggerPoint`, `filter_matches` returns true when
the `ProfilePartIndicator` is absent, or reads 0 with `is_registered` true, or reads 1
with `is_registered` false, for every session case, message and predicate body. -/
theorem filter_matches_without_trigger {SessionCase Msg : Type}
    (spt_matches : SessionCase → Msg → xml_node → Except ifc_error Bool)
    (session_case : SessionCase) (is_registered : Bool) (msg : Msg) (ifc : xml_node)
    (htrigger : ifc.first_node "TriggerPoint" = none)
    (hindicator : ifc.first_node "ProfilePartIndicator" = none ∨
      ∃ profile_part_indicator n,
        ifc.first_node "ProfilePartIndicator" = some profile_part_indicator ∧
        parse_integer (some profile_part_indicator) "ProfilePartIndicator" 0 1 = .ok n ∧
        ((n = 0 ∧ is_registered = true) ∨ (n = 1 ∧ is_registered = false))) :
    filter_matches spt_matches session_case is_registered msg ifc = .ok true := by
  unfold filter_matches
  rcases hindicator with h | ⟨node, n, h, hn, ⟨rfl, rfl⟩ | ⟨rfl, rfl⟩⟩
  · simp [h, htrigger]
  · simp [h, hn, htrigger]
  · simp [h, hn, htrigger]

/-- C11 at a criterion with neither indicator nor trigger, for two session cases and
messages, and at an unregistered-only criterion for an unregistered user. -/
theorem filter_matches_without_trigger_witness :
    filter_matches failing_spt_matches () true "INVITE" ifc_unconditional = .ok true ∧
    filter_matches failing_msg_spt_matches false false sample_msg ifc_unconditional =
      .ok true ∧
    filter_matches failing_spt_matches () false "BYE" ifc_unregistered_only = .ok true :=
  ⟨filter_matches_without_trigger failing_spt_matches () true "INVITE" ifc_unconditional
      rfl (Or.inl rfl),
   filter_matches_without_trigger failing_msg_spt_matches false false sample_msg
      ifc_unconditional rfl (Or.inl rfl),
   filter_matches_without_trigger failing_spt_matches () false "BYE" ifc_unregistered_only
      rfl (Or.inr ⟨leaf "ProfilePartIndicator" "1", 1, rfl, rfl, Or.inr ⟨rfl, rfl⟩⟩)⟩

/-- C12: for a criterion whose `TriggerPoint` is present and has no SPT child, and whose
`ProfilePartIndicator` is absent or agrees with `is_registered`, `filter_matches`
returns the value of `ConditionTypeCNF`: true for CNF, false for DNF. -/
theorem filter_matches_empty_trigger {SessionCase Msg : Type}
    (spt_matches : SessionCase → Msg → xml_node → Except ifc_error Bool)
    (session_case : SessionCase) (is_registered : Bool) (msg : Msg) (ifc trigger : xml_node)
    (cnf : Bool)
    (hindicator : ifc.first_node "ProfilePartIndicator" = none ∨
      ∃ profile_part_indicator n,
        ifc.first_node "ProfilePartIndicator" = some profile_part_indicator ∧
        parse_integer (some profile_part_indicator) "ProfilePartIndicator" 0 1 = .ok n ∧
        ((n = 0 ∧ is_registered = true) ∨ (n = 1 ∧ is_registered = false)))
    (htrigger : ifc.first_node "TriggerPoint" = some trigger)
    (hcnf : parse_bool (trigger.first_node "ConditionTypeCNF") "ConditionTypeCNF" = .ok cnf)
    (hempty : trigger.child_nodes "SPT" = []) :
    filter_matches spt_matches session_case is_registered msg ifc = .ok cnf := by
  unfold filter_matches
  rcases hindicator with h | ⟨node, n, h, hn, ⟨rfl, rfl⟩ | ⟨rfl, rfl⟩⟩
  · simp [h, htrigger, hcnf, hempty, fold_spts, combine_groups]
  · simp [h, hn, htrigger, hcnf, hempty, fold_spts, combine_groups]
  · simp [h, hn, htrigger, hcnf, hempty, fold_spts, combine_groups]

/-- C12 at the empty CNF trigger, which matches, and the empty DNF trigger, which does
not. -/
theorem filter_matches_empty_trigger_witness :
    filter_matches failing_spt_matches () true "INVITE" (ifc_empty_trigger "1") = .ok true ∧
    filter_matches failing_spt_matches () true "INVITE" (ifc_empty_trigger "0") = .ok false :=
  ⟨filter_matches_empty_trigger failing_spt_matches () true "INVITE" (ifc_empty_trigger "1")
      (sample_trigger "1" []) true (Or.inl rfl) rfl rfl rfl,
   filter_matches_empty_trigger failing_spt_matches () true "INVITE" (ifc_empty_trigger "0")
      (sample_trigger "0" []) false (Or.inl rfl) rfl rfl rfl⟩

/-! ## The served user and `lookup_ifcs` -/

/-- C13: when the served user derived from the message is empty, or the HSS connection
reports that no filter document was found for that user, `lookup_ifcs` returns without
an exception and leaves the application-server list as it was passed (empty when passed
empty), whatever the parser and the predicate body would do. -/
theorem lookup_ifcs_nothing_to_apply {SessionCase Uri Trail : Type} (ops : uri_ops Uri)
    (is_originating : SessionCase → Bool)
    (get_user_ifc : String → Trail → Bool × String)
    (parse : String → Except String xml_document)
    (spt_matches : SessionCase → pjsip_msg Uri → xml_node → Except ifc_error Bool)
    (is_registered : Bool) (session_case : SessionCase) (msg : pjsip_msg Uri) (trail : Trail)
    (application_servers : List String)
    (hnothing : served_user_from_msg ops is_originating session_case msg = "" ∨
      (get_user_ifc (served_user_from_msg ops is_originating session_case msg) trail).1 =
        false) :
    lookup_ifcs ops is_originating get_user_ifc parse spt_matches is_registered session_case
        msg trail application_servers =
      .ok (served_user_from_msg ops is_originating session_case msg, application_servers) := by
  unfold lookup_ifcs
  rcases hnothing with h | h
  · simp [h]
  · by_cases hempty : served_user_from_msg ops is_originating session_case msg = ""
    · simp [hempty]
    · simp [hempty, h]

/-- C13 at the sample request: terminating, the request URI is not in the home domain
and the served user is empty; originating, the connection finds no document for alice. -/
theorem lookup_ifcs_nothing_to_apply_witness :
    lookup_ifcs (sample_ops "home.example") id (fun _ (_ : Unit) => (true, "A B"))
        sample_parse failing_msg_spt_matches true false sample_msg () [] = .ok ("", []) ∧
    lookup_ifcs (sample_ops "home.example") id (fun _ (_ : Unit) => (false, ""))
        sample_parse failing_msg_spt_matches true true sample_msg () [] =
      .ok ("sip:alice@home.example", []) :=
  ⟨lookup_ifcs_nothing_to_apply (sample_ops "home.example") id
      (fun _ (_ : Unit) => (true, "A B")) sample_parse failing_msg_spt_matches true false
      sample_msg () [] (Or.inl rfl),
   lookup_ifcs_nothing_to_apply (sample_ops "home.example") id
      (fun _ (_ : Unit) => (false, "")) sample_parse failing_msg_spt_matches true true
      sample_msg () [] (Or.inr rfl)⟩

/-- C14: `served_user_from_msg` reads the From header URI when the session case is
originating and the request URI otherwise; when that URI (without its wrapper) is in the
home domain or local the result is `user_from_uri` of it, and when it is neither the
result is the empty string. -/
theorem served_user_from_msg_selects {SessionCase Uri : Type} (ops : uri_ops Uri)
    (is_originating : SessionCase → Bool) (session_case : SessionCase) (msg : pjsip_msg Uri) :
    (is_originating session_case = true →
      served_user_from_msg ops is_originating session_case msg =
        if ops.is_home_domain (ops.pjsip_uri_get_uri msg.from_hdr_uri) = true ∨
            ops.is_uri_local (ops.pjsip_uri_get_uri msg.from_hdr_uri) = true
        then user_from_uri ops (ops.pjsip_uri_get_uri msg.from_hdr_uri) else "") ∧
    (is_originating session_case = false →
      served_user_from_msg ops is_originating session_case msg =
        if ops.is_home_domain (ops.pjsip_uri_get_uri msg.req_uri) = true ∨
            ops.is_uri_local (ops.pjsip_uri_get_uri msg.req_uri) = true
        then user_from_uri ops (ops.pjsip_uri_get_uri msg.req_uri) else "") := by
  constructor <;> intro h <;> simp [served_user_from_msg, h]

/-- C14 at the sample request: originating, the served user is alice of the From header
(in the home domain, parameters stripped); terminating, the request URI is in another
domain and the served user is empty. -/
theorem served_user_from_msg_selects_witness :
    served_user_from_msg (sample_ops "home.example") id true sample_msg =
      "sip:alice@home.example" ∧
    served_user_from_msg (sample_ops "home.example") id false sample_msg = "" :=
  ⟨((served_user_from_msg_selects (sample_ops "home.example") id true sample_msg).1
      rfl).trans rfl,
   ((served_user_from_msg_selects (sample_ops "home.example") id false sample_msg).2
      rfl).trans rfl⟩

/-! ## Number translation: the query bound -/

theorem dns_chain_queries_le (regex : String → String → String → regex_result)
    (dns : String → Option (List ares_naptr_reply)) (suffix number : String)
    (budget : Nat) (key : String) (queries : Nat) :
    (dns_chain regex dns suffix number budget key queries).2 ≤ queries + budget := by
  induction budget generalizing key queries with
  | zero => simp [dns_chain]
  | succ budget ih =>
    unfold dns_chain
    split
    · simp
    · split
      · simp
      · split
        · simp
        · exact le_trans (ih _ _) (by omega)

theorem dns_chain_looping (regex : String → String → String → regex_result)
    (dns : String → Option (List ares_naptr_reply)) (suffix number : String)
    (hloop : ∀ name, ∃ r, dns name = some [r] ∧ eligible r = true ∧
      flags_kind r.flags = .non_terminal ∧ apply_rewrite regex r number = some number)
    (budget : Nat) (key : String) (queries : Nat) :
    dns_chain regex dns suffix number budget key queries = ("", queries + budget) := by
  induction budget generalizing key queries with
  | zero => simp [dns_chain]
  | succ budget ih =>
    obtain ⟨r, hdns, helig, hflags, hrewrite⟩ := hloop (key_to_domain key suffix)
    unfold dns_chain
    simp only [hdns, List.filter, helig, sort_rules, insert_rule, first_match, hrewrite, hflags]
    rw [ih]
    congr 1
    omega

theorem dns_chain_looping_at (regex : String → String → String → regex_result)
    (dns : String → Option (List ares_naptr_reply)) (suffix number : String)
    (r : ares_naptr_reply)
    (hreply : dns (key_to_domain number suffix) = some [r])
    (heligible : eligible r = true)
    (hflags : flags_kind r.flags = .non_terminal)
    (hrewrite : apply_rewrite regex r number = some number)
    (budget : Nat) (queries : Nat) :
    dns_chain regex dns suffix number budget number queries = ("", queries + budget) := by
  induction budget generalizing queries with
  | zero => simp [dns_chain]
  | succ budget ih =>
    unfold dns_chain
    simp only [hreply, List.filter, heligible, sort_rules, insert_rule, first_match, hrewrite,
      hflags]
    rw [ih]
    congr 1
    omega

theorem looping_rewrite_identity (subject : String) :
    apply_rewrite sample_regex ⟨"", "e2u+sip", "!(^.*$)!\\1!", ".", 1, 1⟩ subject =
        some subject ∧
      apply_rewrite sample_regex ⟨"", "e2u+tel", "!(^.*$)!\\1!", ".", 1, 1⟩ subject =
        some subject := by
  have hfields : rewrite_fields "!(^.*$)!\\1!" = some ("(^.*$)", "\\1", "") := by decide
  constructor <;> simp [apply_rewrite, hfields, sample_regex, substitute_group]

/-- C15, as amended: one call of `DNSEnumService::lookup_uri_from_user` issues at most 5
DNS queries, for every dialled number and every DNS reply database; and when the
normalized number is not empty, the database holds a reply for the name of that number,
and every reply of the database is a single eligible record with non-terminal flags
whose rewrite returns the normalized number unchanged, the call issues exactly 5 queries
and returns the empty string. -/
theorem dns_lookup_query_bound (regex : String → String → String → regex_result)
    (dns : String → Option (List ares_naptr_reply)) (suffix user : String) :
    (DNSEnumService.lookup_uri_from_user regex dns suffix user).2 ≤ 5 ∧
    (normalize_number user ≠ "" →
      (∃ reply, dns (key_to_domain (normalize_number user) suffix) = some reply) →
      (∀ name reply, dns name = some reply →
        ∃ r, reply = [r] ∧ eligible r = true ∧ flags_kind r.flags = .non_terminal ∧
          apply_rewrite regex r (normalize_number user) = some (normalize_number user)) →
      DNSEnumService.lookup_uri_from_user regex dns suffix user = ("", 5)) := by
  constructor
  · unfold DNSEnumService.lookup_uri_from_user translate dns_backend
    split
    · simp
    · have := dns_chain_queries_le regex dns suffix (normalize_number user) MAX_DNS_QUERIES
        (normalize_number user) 0
      simpa [MAX_DNS_QUERIES] using this
  · intro hne hanswer hall
    obtain ⟨reply, hreply⟩ := hanswer
    obtain ⟨r, hsingle, heligible, hflags, hrewrite⟩ := hall _ reply hreply
    subst hsingle
    unfold DNSEnumService.lookup_uri_from_user translate dns_backend
    rw [if_neg hne, dns_chain_looping_at regex dns suffix (normalize_number user) r hreply
      heligible hflags hrewrite]
    simp [MAX_DNS_QUERIES]

/-- C15 at the database of `LoopingRuleTest`, which holds the looping rule at the name of
1234 and nothing else, and the number 1234: five queries and the empty result. -/
theorem dns_lookup_query_bound_witness :
    DNSEnumService.lookup_uri_from_user sample_regex looping_rule_dns ".e164.arpa" "1234" =
      ("", 5) :=
  (dns_lookup_query_bound sample_regex looping_rule_dns ".e164.arpa" "1234").2 (by decide)
    ⟨looping_reply, rfl⟩
    (by
      intro name reply hreply
      by_cases hname : ("4.3.2.1.e164.arpa" == name) = true
      · have hfound : looping_rule_dns name = some looping_reply := by
          simp [looping_rule_dns, table_dns, List.find?_cons, hname]
        rw [hfound] at hreply
        cases hreply
        exact ⟨_, rfl, rfl, rfl, rfl⟩
      · have hmissing : looping_rule_dns name = none := by
          simp only [Bool.not_eq_true] at hname
          simp [looping_rule_dns, table_dns, List.find?_cons, hname]
        rw [hmissing] at hreply
        cases hreply)

/-- C15 as stated fails in three ways, each at a database all of whose replies are a
single non-terminal record whose rewrite returns its input unchanged. At the empty
dialled number the call issues no query. At the number 1234, when the service of that
record is `e2u+tel`, the record is ignored and the call ends after 1 query. And at the
number 1234 with a database that holds no reply at all, the call ends after 1 query. -/
theorem dns_lookup_looping_not_five :
    ((∀ name reply, looping_dns name = some reply →
        ∃ r, reply = [r] ∧ flags_kind r.flags = .non_terminal ∧
          ∀ subject, apply_rewrite sample_regex r subject = some subject) ∧
      DNSEnumService.lookup_uri_from_user sample_regex looping_dns ".e164.arpa" "" =
        ("", 0) ∧
      (DNSEnumService.lookup_uri_from_user sample_regex looping_dns ".e164.arpa" "").2 ≠ 5) ∧
    ((∀ name reply, tel_looping_dns name = some reply →
        ∃ r, reply = [r] ∧ flags_kind r.flags = .non_terminal ∧
          ∀ subject, apply_rewrite sample_regex r subject = some subject) ∧
      DNSEnumService.lookup_uri_from_user sample_regex tel_looping_dns ".e164.arpa" "1234" =
        ("", 1) ∧
      (DNSEnumService.lookup_uri_from_user sample_regex tel_looping_dns ".e164.arpa"
        "1234").2 ≠ 5) ∧
    ((∀ name reply, table_dns [] name = some reply →
        ∃ r, reply = [r] ∧ flags_kind r.flags = .non_terminal ∧
          ∀ subject, apply_rewrite sample_regex r subject = some subject) ∧
      DNSEnumService.lookup_uri_from_user sample_regex (table_dns []) ".e164.arpa" "1234" =
        ("", 1) ∧
      (DNSEnumService.lookup_uri_from_user sample_regex (table_dns []) ".e164.arpa"
        "1234").2 ≠ 5) := by
  refine ⟨⟨?_, rfl, by decide⟩, ⟨?_, rfl, by decide⟩, ⟨?_, rfl, by decide⟩⟩
  · intro name reply hreply
    cases hreply
    exact ⟨_, rfl, rfl, fun subject => (looping_rewrite_identity subject).1⟩
  · intro name reply hreply
    cases hreply
    exact ⟨_, rfl, rfl, fun subject => (looping_rewrite_identity subject).2⟩
  · intro name reply hreply
    cases hreply

/-! ## Number translation: the order of the rules -/

theorem rule_le_total (a b : ares_naptr_reply) (h : rule_le a b = false) :
    rule_le b a = true := by
  simp only [rule_le, Bool.or_eq_false_iff, Bool.and_eq_false_iff, decide_eq_false_iff_not,
    Bool.or_eq_true, Bool.and_eq_true, decide_eq_true_eq] at h ⊢
  omega

theorem rule_le_trans (a b c : ares_naptr_reply) (hab : rule_le a b = true)
    (hbc : rule_le b c = true) : rule_le a c = true := by
  simp only [rule_le, Bool.or_eq_true, Bool.and_eq_true, decide_eq_true_eq] at hab hbc ⊢
  omega

theorem mem_insert_rule (r y : ares_naptr_reply) (rules : List ares_naptr_reply) :
    y ∈ insert_rule r rules ↔ y = r ∨ y ∈ rules := by
  induction rules with
  | nil => simp [insert_rule]
  | cons x xs ih =>
    unfold insert_rule
    split
    · simp
    · simp only [List.mem_cons, ih]
      tauto

theorem mem_sort_rules (y : ares_naptr_reply) (rules : List ares_naptr_reply) :
    y ∈ sort_rules rules ↔ y ∈ rules := by
  induction rules with
  | nil => simp [sort_rules]
  | cons x xs ih => simp [sort_rules, mem_insert_rule, ih]

theorem insert_rule_sorted (r : ares_naptr_reply) (rules : List ares_naptr_reply)
    (h : rules.Pairwise (fun a b => rule_le a b = true)) :
    (insert_rule r rules).Pairwise (fun a b => rule_le a b = true) := by
  induction rules with
  | nil => simp [insert_rule]
  | cons x xs ih =>
    have h' := List.pairwise_cons.1 h
    unfold insert_rule
    split
    · rename_i hle
      refine List.pairwise_cons.2 ⟨?_, h⟩
      intro y hy
      rcases List.mem_cons.1 hy with rfl | hy
      · exact hle
      · exact rule_le_trans r x y hle (h'.1 y hy)
    · rename_i hle
      refine List.pairwise_cons.2 ⟨?_, ih h'.2⟩
      intro y hy
      rcases (mem_insert_rule r y xs).1 hy with rfl | hy
      · exact rule_le_total _ _ (by simpa using hle)
      · exact h'.1 y hy

theorem sort_rules_sorted (rules : List ares_naptr_reply) :
    (sort_rules rules).Pairwise (fun a b => rule_le a b = true) := by
  induction rules with
  | nil => simp [sort_rules]
  | cons x xs ih => exact insert_rule_sorted x _ ih

theorem first_match_mem (regex : String → String → String → regex_result) (number : String)
    (rules : List ares_naptr_reply) (r : ares_naptr_reply) (uri : String)
    (h : first_match regex number rules = some (r, uri)) : r ∈ rules := by
  induction rules with
  | nil => simp [first_match] at h
  | cons x xs ih =>
    unfold first_match at h
    split at h
    · simp only [Option.some.injEq, Prod.mk.injEq] at h
      simp [h.1]
    · exact List.mem_cons_of_mem _ (ih h)

theorem first_match_insert_no_match (regex : String → String → String → regex_result)
    (number : String) (x : ares_naptr_reply) (rules : List ares_naptr_reply)
    (hx : apply_rewrite regex x number = none) :
    first_match regex number (insert_rule x rules) = first_match regex number rules := by
  induction rules with
  | nil => simp [insert_rule, first_match, hx]
  | cons y ys ih =>
    unfold insert_rule
    split
    · simp [first_match, hx]
    · simp only [first_match, ih]

theorem first_match_insert_after (regex : String → String → String → regex_result)
    (number : String) (x r : ares_naptr_reply) (uri : String) (rules : List ares_naptr_reply)
    (hsorted : rules.Pairwise (fun a b => rule_le a b = true))
    (hfirst : first_match regex number rules = some (r, uri))
    (hafter : rule_le x r = false) :
    first_match regex number (insert_rule x rules) = some (r, uri) := by
  induction rules with
  | nil => simp [first_match] at hfirst
  | cons y ys ih =>
    have hs := List.pairwise_cons.1 hsorted
    unfold first_match at hfirst
    cases hy : apply_rewrite regex y number with
    | some s =>
      simp only [hy, Option.some.injEq, Prod.mk.injEq] at hfirst
      obtain ⟨rfl, rfl⟩ := hfirst
      simp [insert_rule, hafter, first_match, hy]
    | none =>
      simp only [hy] at hfirst
      have hyr : rule_le y r = true := hs.1 r (first_match_mem regex number ys r uri hfirst)
      have hxy : rule_le x y = false := by
        cases hxy : rule_le x y with
        | false => rfl
        | true => rw [rule_le_trans x y r hxy hyr] at hafter; exact absurd hafter (by decide)
      simp [insert_rule, hxy, first_match, hy, ih hs.2 hfirst]

theorem first_match_insert_first (regex : String → String → String → regex_result)
    (number : String) (r : ares_naptr_reply) (uri : String) (rules : List ares_naptr_reply)
    (hr : apply_rewrite regex r number = some uri)
    (hbelow : ∀ y ∈ rules, rule_le r y = false → apply_rewrite regex y number = none) :
    first_match regex number (insert_rule r rules) = some (r, uri) := by
  induction rules with
  | nil => simp [insert_rule, first_match, hr]
  | cons y ys ih =>
    unfold insert_rule
    split
    · simp [first_match, hr]
    · rename_i hle
      have hy := hbelow y (List.mem_cons_self _ _) (by simpa using hle)
      simp only [first_match, hy]
      exact ih (fun z hz => hbelow z (List.mem_cons_of_mem _ hz))

theorem first_match_sort_rules (regex : String → String → String → regex_result)
    (number : String) (r : ares_naptr_reply) (uri : String)
    (pre post : List ares_naptr_reply)
    (hr : apply_rewrite regex r number = some uri)
    (hpre : ∀ x ∈ pre, rule_le x r = true → apply_rewrite regex x number = none)
    (hpost : ∀ x ∈ post, rule_le r x = false → apply_rewrite regex x number = none) :
    first_match regex number (sort_rules (pre ++ r :: post)) = some (r, uri) := by
  induction pre with
  | nil =>
    simp only [List.nil_append, sort_rules]
    exact first_match_insert_first regex number r uri _ hr
      (fun y hy => hpost y ((mem_sort_rules y post).1 hy))
  | cons x xs ih =>
    have hrest := ih (fun z hz => hpre z (List.mem_cons_of_mem _ hz))
    simp only [List.cons_append, sort_rules]
    cases hxr : rule_le x r with
    | true =>
      rw [first_match_insert_no_match regex number x _ (hpre x (List.mem_cons_self _ _) hxr)]
      exact hrest
    | false =>
      exact first_match_insert_after regex number x r uri _ (sort_rules_sorted _) hrest hxr

/-- C16: the DNS-chain backend tries the eligible records of a reply in ascending
`(order, preference)`, ties in reply order. If an eligible terminal record `r` of the
reply rewrites the number to `uri`, and no eligible record that is tried before it
applies (a record earlier in the reply that is not above `r`, or a later one that is
strictly below `r`), the result is `uri` after one query. In particular, when every
eligible record applies, the result is that of the first record of least
`(order, preference)`, wherever it stands in the reply. -/
theorem dns_backend_order_preference (regex : String → String → String → regex_result)
    (dns : String → Option (List ares_naptr_reply)) (suffix number uri : String)
    (pre post : List ares_naptr_reply) (r : ares_naptr_reply)
    (hreply : dns (key_to_domain number suffix) = some (pre ++ r :: post))
    (heligible : eligible r = true)
    (hterminal : flags_kind r.flags = .terminal)
    (hrewrite : apply_rewrite regex r number = some uri)
    (hpre : ∀ x ∈ pre, eligible x = true → rule_le x r = true →
      apply_rewrite regex x number = none)
    (hpost : ∀ x ∈ post, eligible x = true → rule_le r x = false →
      apply_rewrite regex x number = none) :
    dns_backend regex dns suffix number = (uri, 1) := by
  have hfirst := first_match_sort_rules regex number r uri (pre.filter eligible)
    (post.filter eligible) hrewrite
    (fun x hx => hpre x (List.mem_filter.1 hx).1 (List.mem_filter.1 hx).2)
    (fun x hx => hpost x (List.mem_filter.1 hx).1 (List.mem_filter.1 hx).2)
  unfold dns_backend MAX_DNS_QUERIES dns_chain
  simp only [hreply, List.filter_append, List.filter_cons, heligible, if_true, hfirst,
    hterminal]

/-- C16 at the reply of `OrderPriorityTest`, whose records come in the order (2,1),
(1,2), (1,1) and all apply: the result is the rewrite of the (1,1) record. -/
theorem dns_backend_order_preference_witness :
    dns_backend sample_regex (table_dns [("4.3.2.1.e164.arpa", order_priority_reply)])
      ".e164.arpa" "1234" = ("sip:1234@ut.cw-ngv.com", 1) :=
  dns_backend_order_preference sample_regex
    (table_dns [("4.3.2.1.e164.arpa", order_priority_reply)]) ".e164.arpa" "1234"
    "sip:1234@ut.cw-ngv.com"
    [⟨"u", "e2u+sip", "!(^.*$)!sip:\\1@ut3.cw-ngv.com!", ".", 2, 1⟩,
     ⟨"u", "e2u+sip", "!(^.*$)!sip:\\1@ut2.cw-ngv.com!", ".", 1, 2⟩]
    [] ⟨"u", "e2u+sip", "!(^.*$)!sip:\\1@ut.cw-ngv.com!", ".", 1, 1⟩
    rfl rfl rfl rfl
    (by
      intro x hx _ hle
      simp only [List.mem_cons, List.mem_singleton, List.not_mem_nil, or_false] at hx
      rcases hx with rfl | rfl
      · exact absurd hle (by decide)
      · exact absurd hle (by decide))
    (by
      intro x hx
      exact absurd hx (List.not_mem_nil x))

/-! ## Number translation: normalization -/

theorem strip_number_later (cs : List Char) : strip_number false cs = cs.filter isdigit := by
  induction cs with
  | nil => rfl
  | cons c cs ih =>
    simp only [strip_number, Bool.false_and, Bool.or_false, ih, List.filter_cons]

theorem filter_enum_later (cs : List Char) (k : Nat) (hk : 0 < k) :
    ((cs.enumFrom k).filter (fun p => isdigit p.2 || (p.1 == 0 && p.2 == '+'))).map Prod.snd =
      cs.filter isdigit := by
  induction cs generalizing k with
  | nil => rfl
  | cons c cs ih =>
    have hk0 : (k == 0) = false := by simp; omega
    simp only [List.enumFrom_cons, List.filter_cons, hk0, Bool.false_and, Bool.or_false]
    split
    · simp [ih (k + 1) (by omega)]
    · exact ih (k + 1) (by omega)

/-- C17: number normalization keeps exactly the characters of the input that are a
decimal digit, or a `+` standing first in the input, in their order; so `1-2.3(4)`
normalizes to `1234`, and the `+` of `214+4324`, which is not leading, is removed. -/
theorem normalize_number_keeps (user : String) :
    (normalize_number user).toList =
      ((user.toList.enum.filter
        (fun p => isdigit p.2 || (p.1 == 0 && p.2 == '+'))).map Prod.snd) ∧
    normalize_number "1-2.3(4)" = "1234" ∧
    normalize_number "214+4324" = "2144324" ∧
    normalize_number "+1234" = "+1234" := by
  refine ⟨?_, by decide, by decide, by decide⟩
  unfold normalize_number
  cases user.toList with
  | nil => rfl
  | cons c cs =>
    simp only [strip_number, strip_number_later, List.enum, List.enumFrom_cons,
      List.filter_cons, Bool.true_and, beq_self_eq_true]
    split
    · simp [filter_enum_later cs 1 (by omega)]
    · simp [filter_enum_later cs 1 (by omega)]

/-! ## Number translation: the static blocks -/

theorem scan_blocks_no_match (number : String) (blocks : List number_block)
    (best : Option number_block)
    (hnone : ∀ b ∈ blocks, starts_with b.pfx.toList number.toList = false) :
    scan_blocks number blocks best = best := by
  induction blocks with
  | nil => rfl
  | cons b rest ih =>
    have hb := hnone b (List.mem_cons_self _ _)
    simp only [scan_blocks, hb, Bool.false_and, Bool.false_eq_true, if_false]
    exact ih (fun x hx => hnone x (List.mem_cons_of_mem _ hx))

theorem scan_blocks_keeps (number : String) (b : number_block) (post : List number_block)
    (hpost : ∀ x ∈ post, starts_with x.pfx.toList number.toList = true →
      x.pfx.length ≤ b.pfx.length) :
    scan_blocks number post (some b) = some b := by
  induction post with
  | nil => rfl
  | cons x rest ih =>
    have hrest := ih (fun y hy => hpost y (List.mem_cons_of_mem _ hy))
    unfold scan_blocks
    cases hx : starts_with x.pfx.toList number.toList with
    | false => simpa using hrest
    | true =>
      have := hpost x (List.mem_cons_self _ _) hx
      have hlt : ¬ b.pfx.length < x.pfx.length := by omega
      simpa [hlt] using hrest

theorem scan_blocks_longest (number : String) (b : number_block)
    (pre post : List number_block) (best : Option number_block)
    (hb : starts_with b.pfx.toList number.toList = true)
    (hbest : ∀ c, best = some c → c.pfx.length < b.pfx.length)
    (hpre : ∀ x ∈ pre, starts_with x.pfx.toList number.toList = true →
      x.pfx.length < b.pfx.length)
    (hpost : ∀ x ∈ post, starts_with x.pfx.toList number.toList = true →
      x.pfx.length ≤ b.pfx.length) :
    scan_blocks number (pre ++ b :: post) best = some b := by
  induction pre generalizing best with
  | nil =>
    cases best with
    | none =>
      simp only [List.nil_append, scan_blocks, hb, Bool.and_self, if_true]
      exact scan_blocks_keeps number b post hpost
    | some c =>
      have hc : decide (c.pfx.length < b.pfx.length) = true := by simpa using hbest c rfl
      simp only [List.nil_append, scan_blocks, hb, hc, Bool.and_self, if_true]
      exact scan_blocks_keeps number b post hpost
  | cons x rest ih =>
    have hrest := fun best' h => ih best' h (fun y hy => hpre y (List.mem_cons_of_mem _ hy))
    simp only [List.cons_append, scan_blocks]
    split
    · rename_i hcond
      simp only [Bool.and_eq_true] at hcond
      apply hrest
      intro c hc
      cases hc
      exact hpre x (List.mem_cons_self _ _) hcond.1
    · exact hrest best hbest

/-- C18: on every number, the static-block backend gives the empty string when no
configured key starts the number, and otherwise applies the block whose key is the
longest configured key that starts the number, the first loaded among equally long
ones: a block `b` that starts the number, with every matching block loaded before it
strictly shorter and every matching block loaded after it no longer. -/
theorem static_backend_longest_match (apply_block : number_block → String → Option String)
    (blocks : List number_block) (number : String) :
    ((∀ b ∈ blocks, starts_with b.pfx.toList number.toList = false) →
      static_backend apply_block blocks number = "") ∧
    (∀ (pre post : List number_block) (b : number_block),
      blocks = pre ++ b :: post →
      starts_with b.pfx.toList number.toList = true →
      (∀ x ∈ pre, starts_with x.pfx.toList number.toList = true →
        x.pfx.length < b.pfx.length) →
      (∀ x ∈ post, starts_with x.pfx.toList number.toList = true →
        x.pfx.length ≤ b.pfx.length) →
      static_backend apply_block blocks number = (apply_block b number).getD "") := by
  constructor
  · intro hnone
    simp [static_backend, scan_blocks_no_match number blocks none hnone]
  · intro pre post b hblocks hb hpre hpost
    subst hblocks
    simp [static_backend,
      scan_blocks_longest number b pre post none hb (fun c hc => by cases hc) hpre hpost]

/-- C18 at the blocks `+1` and `+15108580271`: the number `+15108580271` uses the second
block, `+15108580277` the first, and `6505551234`, which no key starts, gives the empty
string. -/
theorem static_backend_longest_match_witness :
    JSONEnumService.lookup_uri_from_user sample_apply_block sample_blocks "+15108580271" =
      "sip:+15108580271@ut.cw-ngv.com" ∧
    JSONEnumService.lookup_uri_from_user sample_apply_block sample_blocks "+15108580277" =
      "sip:+15108580277@utext.cw-ngv.com" ∧
    JSONEnumService.lookup_uri_from_user sample_apply_block sample_blocks "6505551234" = "" :=
  ⟨(static_backend_longest_match sample_apply_block sample_blocks "+15108580271").2
      [⟨"+1", none, "utext.cw-ngv.com"⟩] [] ⟨"+15108580271", none, "ut.cw-ngv.com"⟩ rfl rfl
      (by
        intro x hx _
        rw [List.mem_singleton.1 hx]
        decide)
      (fun x hx => absurd hx (List.not_mem_nil x)),
   (static_backend_longest_match sample_apply_block sample_blocks "+15108580277").2
      [] [⟨"+15108580271", none, "ut.cw-ngv.com"⟩] ⟨"+1", none, "utext.cw-ngv.com"⟩ rfl rfl
      (fun x hx => absurd hx (List.not_mem_nil x))
      (by
        intro x hx hstarts
        rw [List.mem_singleton.1 hx] at hstarts
        exact absurd hstarts (by decide)),
   (static_backend_longest_match sample_apply_block sample_blocks "6505551234").1
      (by decide)⟩

/-! ## Number translation: eligible records and empty numbers -/

theorem dns_chain_filtered (regex : String → String → String → regex_result)
    (dns dns' : String → Option (List ares_naptr_reply)) (suffix number : String)
    (hfiltered : ∀ name, dns' name = (dns name).map (List.filter eligible))
    (budget : Nat) (key : String) (queries : Nat) :
    dns_chain regex dns' suffix number budget key queries =
      dns_chain regex dns suffix number budget key queries := by
  induction budget generalizing key queries with
  | zero => rfl
  | succ budget ih =>
    unfold dns_chain
    rw [hfiltered]
    cases dns (key_to_domain key suffix) with
    | none => rfl
    | some reply => simp only [Option.map_some', List.filter_filter, Bool.and_self, ih]

/-- C19: a reply record is eligible exactly when its service is `e2u+sip` or
`e2u+pstn:sip` and its flags are terminal or non-terminal; the DNS-chain backend gives
the same result and query count when the other records are removed from every reply;
and a reply to the first query that holds no eligible record gives the empty result
after exactly 1 query. -/
theorem dns_backend_eligible_only (regex : String → String → String → regex_result)
    (dns : String → Option (List ares_naptr_reply)) (suffix number : String) :
    (∀ r : ares_naptr_reply, eligible r = true ↔
      (r.service = "e2u+sip" ∨ r.service = "e2u+pstn:sip") ∧
      (flags_kind r.flags = .terminal ∨ flags_kind r.flags = .non_terminal)) ∧
    (∀ dns' : String → Option (List ares_naptr_reply),
      (∀ name, dns' name = (dns name).map (List.filter eligible)) →
      dns_backend regex dns' suffix number = dns_backend regex dns suffix number) ∧
    (∀ reply, dns (key_to_domain number suffix) = some reply →
      (∀ r ∈ reply, eligible r = false) →
      dns_backend regex dns suffix number = ("", 1)) := by
  refine ⟨?_, ?_, ?_⟩
  · intro r
    unfold eligible
    cases h : flags_kind r.flags <;> simp
  · intro dns' hfiltered
    exact dns_chain_filtered regex dns dns' suffix number hfiltered _ _ _
  · intro reply hreply hnone
    have hfilter : reply.filter eligible = [] :=
      List.filter_eq_nil_iff.2 (fun r hr => by simp [hnone r hr])
    unfold dns_backend MAX_DNS_QUERIES dns_chain
    simp only [hreply, hfilter, sort_rules, first_match]

/-- C19 at the replies of `InvalidTypeTest` (service `e2u+tel`) and `InvalidFlagsTest`
(flags `foo`): the empty result after one query. -/
theorem dns_backend_eligible_only_witness :
    DNSEnumService.lookup_uri_from_user sample_regex
      (table_dns [("4.3.2.1.e164.arpa", invalid_type_reply)]) ".e164.arpa" "1234" = ("", 1) ∧
    DNSEnumService.lookup_uri_from_user sample_regex
      (table_dns [("4.3.2.1.e164.arpa", invalid_flags_reply)]) ".e164.arpa" "1234" = ("", 1) :=
  ⟨(dns_backend_eligible_only sample_regex
      (table_dns [("4.3.2.1.e164.arpa", invalid_type_reply)]) ".e164.arpa" "1234").2.2
      invalid_type_reply rfl (by decide),
   (dns_backend_eligible_only sample_regex
      (table_dns [("4.3.2.1.e164.arpa", invalid_flags_reply)]) ".e164.arpa" "1234").2.2
      invalid_flags_reply rfl (by decide)⟩

/-- C20: an input whose normalized number is empty yields the empty string from both
translation services, and the DNS-chain service issues no DNS query for it. -/
theorem lookup_empty_number (apply_block : number_block → String → Option String)
    (blocks : List number_block) (regex : String → String → String → regex_result)
    (dns : String → Option (List ares_naptr_reply)) (suffix user : String)
    (hempty : normalize_number user = "") :
    JSONEnumService.lookup_uri_from_user apply_block blocks user = "" ∧
    DNSEnumService.lookup_uri_from_user regex dns suffix user = ("", 0) := by
  simp [JSONEnumService.lookup_uri_from_user, DNSEnumService.lookup_uri_from_user, translate,
    hempty]

/-- C20 at the empty string and at a string without digits, with a catch-all block and a
resolver that would answer every query. -/
theorem lookup_empty_number_witness :
    (JSONEnumService.lookup_uri_from_user sample_apply_block [⟨"", none, "198.147.226.2"⟩] "" =
        "" ∧
      DNSEnumService.lookup_uri_from_user sample_regex looping_dns ".e164.arpa" "" = ("", 0)) ∧
    (JSONEnumService.lookup_uri_from_user sample_apply_block [⟨"", none, "198.147.226.2"⟩]
        "(-)" = "" ∧
      DNSEnumService.lookup_uri_from_user sample_regex looping_dns ".e164.arpa" "(-)" =
        ("", 0)) :=
  ⟨lookup_empty_number sample_apply_block [⟨"", none, "198.147.226.2"⟩] sample_regex
      looping_dns ".e164.arpa" "" (by decide),
   lookup_empty_number sample_apply_block [⟨"", none, "198.147.226.2"⟩] sample_regex
      looping_dns ".e164.arpa" "(-)" (by decide)⟩

/-! ## The output list, the priority and the booleans -/

/-- C30: `calculate_application_servers` only appends to its output list: the list
after the call is the list before it followed by the added names, and when the text
does not parse or the document has no top-level `ServiceProfile` the list is returned
exactly as it was. -/
theorem calculate_application_servers_appends {SessionCase Msg : Type}
    (parse : String → Except String xml_document)
    (spt_matches : SessionCase → Msg → xml_node → Except ifc_error Bool)
    (session_case : SessionCase) (is_registered : Bool) (msg : Msg) (ifc_xml : String)
    (as_list : List String) :
    (∃ added : List String,
      calculate_application_servers parse spt_matches session_case is_registered msg ifc_xml
          as_list = .ok (as_list ++ added) ∧
      calculate_application_servers parse spt_matches session_case is_registered msg ifc_xml
          [] = .ok added) ∧
    (((∃ err, parse ifc_xml = .error err) ∨
        (∃ doc, parse ifc_xml = .ok doc ∧ doc.first_node "ServiceProfile" = none)) →
      calculate_application_servers parse spt_matches session_case is_registered msg ifc_xml
          as_list = .ok as_list) := by
  constructor
  · refine ⟨_, calculate_eq parse spt_matches session_case is_registered msg ifc_xml as_list,
      ?_⟩
    rw [calculate_eq, List.nil_append]
  · intro hinvalid
    unfold calculate_application_servers parse_or_clear
    rcases hinvalid with ⟨err, h⟩ | ⟨doc, h, hsp⟩
    · simp [h, xml_document.first_node]
    · simp [h, hsp]

/-- C30 at a list that already holds one name: a text that does not parse leaves it as
it was, and the sample profile A, B appends its two names behind it. -/
theorem calculate_application_servers_appends_witness :
    calculate_application_servers sample_parse method_spt_matches () true "INVITE"
        "<ServiceProfile" ["sip:first"] = .ok ["sip:first"] ∧
    calculate_application_servers sample_parse method_spt_matches () true "INVITE"
        "<ServiceProfile>A B</ServiceProfile>" ["sip:first"] =
      .ok ["sip:first", "sip:as-b", "sip:as-a"] :=
  ⟨(calculate_application_servers_appends sample_parse method_spt_matches () true "INVITE"
      "<ServiceProfile" ["sip:first"]).2 (Or.inl ⟨_, rfl⟩), rfl⟩

/-- C26: a criterion that matches and has an `ApplicationServer` but no `Priority`
makes the body of the `try` block throw the missing-mandatory-value `ifc_error`, and
`calculate_application_servers` gives the result it gives for the same profile without
that criterion: no priority is assumed for it. -/
theorem calculate_application_servers_no_priority {SessionCase Msg : Type}
    (parse : String → Except String xml_document)
    (spt_matches : SessionCase → Msg → xml_node → Except ifc_error Bool)
    (session_case : SessionCase) (is_registered : Bool) (msg : Msg)
    (ifc_xml ifc_xml' : String) (doc doc' : xml_document) (n v n' v' : String)
    (pre post : List xml_node) (c as : xml_node) (as_list : List String)
    (hparse : parse ifc_xml = .ok doc)
    (hsp : doc.first_node "ServiceProfile" = some (xml_node.mk n v (pre ++ c :: post)))
    (hparse' : parse ifc_xml' = .ok doc')
    (hsp' : doc'.first_node "ServiceProfile" = some (xml_node.mk n' v' (pre ++ post)))
    (hmatch : filter_matches spt_matches session_case is_registered msg c = .ok true)
    (has : c.first_node "ApplicationServer" = some as)
    (hpriority : c.first_node "Priority" = none) :
    (∀ as_map, process_ifc spt_matches session_case is_registered msg c as_map =
      .error ⟨"Missing mandatory value for iFC priority"⟩) ∧
    calculate_application_servers parse spt_matches session_case is_registered msg ifc_xml
        as_list =
      calculate_application_servers parse spt_matches session_case is_registered msg
        ifc_xml' as_list := by
  constructor
  · intro as_map
    simp [process_ifc, hmatch, has, hpriority, parse_integer]
  · apply calculate_skip parse spt_matches session_case is_registered msg ifc_xml ifc_xml' doc
      doc' n v n' v' pre post c as_list hparse hsp hparse' hsp'
    simp [recorded_entry, hmatch, has, hpriority, parse_integer]

/-- C26 at the profile A, no-priority, B, whose middle criterion matches and has an
`ApplicationServer`: the result is that of the profile A, B. -/
theorem calculate_application_servers_no_priority_witness :
    calculate_application_servers
        (table_parse [("A no-priority B", sample_doc [ifc_a, ifc_no_priority, ifc_b]),
          ("A B", sample_doc [ifc_a, ifc_b])])
        method_spt_matches () true "INVITE" "A no-priority B" [] =
      .ok ["sip:as-b", "sip:as-a"] :=
  ((calculate_application_servers_no_priority
      (table_parse [("A no-priority B", sample_doc [ifc_a, ifc_no_priority, ifc_b]),
        ("A B", sample_doc [ifc_a, ifc_b])])
      method_spt_matches () true "INVITE" "A no-priority B" "A B"
      (sample_doc [ifc_a, ifc_no_priority, ifc_b]) (sample_doc [ifc_a, ifc_b])
      "ServiceProfile" "" "ServiceProfile" "" [ifc_a] [ifc_b] ifc_no_priority
      (elem "ApplicationServer" [leaf "ServerName" "sip:as-x"]) [] rfl rfl rfl rfl rfl rfl
      rfl).2).trans rfl

/-- C27: on a present node `parse_bool` never faults, and returns true exactly when the
text of the node is `true` or `1`; so `TRUE` and `banana` read as false. On an absent
node it throws an `ifc_error`, and so does `filter_matches` on a criterion whose
`TriggerPoint` has no `ConditionTypeCNF`. -/
theorem parse_bool_reads (description : String) :
    (∀ node : xml_node, ∃ b, parse_bool (some node) description = .ok b ∧
      (b = true ↔ c_str node.value = "true".toList ∨ c_str node.value = "1".toList)) ∧
    parse_bool (some (leaf "ConditionTypeCNF" "TRUE")) description = .ok false ∧
    parse_bool (some (leaf "ConditionNegated" "banana")) description = .ok false ∧
    parse_bool (some (leaf "ConditionTypeCNF" "true")) description = .ok true ∧
    parse_bool (some (leaf "ConditionNegated" "1")) description = .ok true ∧
    (∃ err, parse_bool none description = .error err) ∧
    (∃ err, filter_matches method_spt_matches () true "INVITE" ifc_no_cnf = .error err) := by
  refine ⟨?_, rfl, rfl, rfl, rfl, ⟨_, rfl⟩, ⟨_, rfl⟩⟩
  intro node
  refine ⟨_, rfl, ?_⟩
  simp

/-! ## The group map -/

theorem map_find_cons_eq (rest : GroupMap) (k : Int) (v : Bool) :
    map_find ((k, v) :: rest) k = some v := by
  simp [map_find]

theorem map_find_cons_ne (rest : GroupMap) (k0 k : Int) (v : Bool) (h : k0 ≠ k) :
    map_find ((k0, v) :: rest) k = map_find rest k := by
  have hb : (k0 == k) = false := by simpa using h
  simp only [map_find, List.find?_cons, hb]

theorem map_find_map_set (m : GroupMap) (k : Int) (v : Bool) (k' : Int) :
    map_find (map_set m k v) k' = if k' = k then some v else map_find m k' := by
  induction m with
  | nil =>
    unfold map_set
    by_cases h : k' = k
    · rw [if_pos h, h, map_find_cons_eq]
    · rw [if_neg h, map_find_cons_ne _ _ _ _ (fun e => h e.symm)]
  | cons e rest ih =>
    obtain ⟨k0, v0⟩ := e
    unfold map_set
    split
    · by_cases h : k' = k
      · rw [if_pos h, h, map_find_cons_eq]
      · rw [if_neg h, map_find_cons_ne _ _ _ _ (fun e => h e.symm)]
    · split
      · rename_i hk
        subst hk
        by_cases h : k' = k
        · rw [if_pos h, h, map_find_cons_eq]
        · rw [if_neg h, map_find_cons_ne _ _ _ _ (fun e => h e.symm),
            map_find_cons_ne _ _ _ _ (fun e => h e.symm)]
      · rename_i hlt hne
        by_cases h0 : k0 = k'
        · subst h0
          rw [map_find_cons_eq, map_find_cons_eq, if_neg (fun e => hne e.symm)]
        · rw [map_find_cons_ne _ _ _ _ h0, map_find_cons_ne _ _ _ _ h0]
          exact ih

theorem mem_map_set (m : GroupMap) (k : Int) (v : Bool) (e : Int × Bool)
    (he : e ∈ map_set m k v) : e = (k, v) ∨ e ∈ m := by
  induction m with
  | nil => simpa [map_set] using he
  | cons x rest ih =>
    obtain ⟨k0, v0⟩ := x
    unfold map_set at he
    split at he
    · rcases List.mem_cons.1 he with h | h
      · exact Or.inl h
      · exact Or.inr h
    · split at he
      · rcases List.mem_cons.1 he with h | h
        · exact Or.inl h
        · exact Or.inr (List.mem_cons_of_mem _ h)
      · rcases List.mem_cons.1 he with h | h
        · exact Or.inr (by simp [h])
        · rcases ih h with h | h
          · exact Or.inl h
          · exact Or.inr (List.mem_cons_of_mem _ h)

theorem map_set_strict (m : GroupMap) (k : Int) (v : Bool) (h : keys_strict m) :
    keys_strict (map_set m k v) := by
  induction m with
  | nil => simp [map_set, keys_strict]
  | cons x rest ih =>
    obtain ⟨k0, v0⟩ := x
    have h' := List.pairwise_cons.1 h
    unfold map_set
    split
    · rename_i hlt
      refine List.pairwise_cons.2 ⟨?_, h⟩
      intro b hb
      rcases List.mem_cons.1 hb with rfl | hb
      · exact hlt
      · exact lt_trans hlt (h'.1 b hb)
    · split
      · rename_i hk
        subst hk
        exact List.pairwise_cons.2 ⟨h'.1, h'.2⟩
      · rename_i hlt hne
        refine List.pairwise_cons.2 ⟨?_, ih h'.2⟩
        intro b hb
        rcases mem_map_set rest k v b hb with rfl | hb
        · show k0 < k
          omega
        · exact h'.1 b hb

theorem map_find_of_mem (m : GroupMap) (k : Int) (v : Bool) (h : keys_strict m)
    (hmem : (k, v) ∈ m) : map_find m k = some v := by
  induction m with
  | nil => simp at hmem
  | cons x rest ih =>
    obtain ⟨k0, v0⟩ := x
    have h' := List.pairwise_cons.1 h
    rcases List.mem_cons.1 hmem with heq | hrest
    · cases heq
      simp [map_find]
    · have hlt : k0 < k := h'.1 (k, v) hrest
      rw [map_find_cons_ne _ _ _ _ (by omega)]
      exact ih h'.2 hrest

theorem map_find_nil_of_none (m : GroupMap) (h : ∀ k, map_find m k = none) : m = [] := by
  cases m with
  | nil => rfl
  | cons x rest =>
    have := h x.1
    simp [map_find] at this

theorem combine_groups_uniform (cnf : Bool) (m : GroupMap) (V : Bool)
    (hall : ∀ e ∈ m, e.2 = V) (hne : m ≠ []) : combine_groups cnf m = V := by
  have hfold : ∀ (l : GroupMap) (r : Bool), (∀ e ∈ l, e.2 = V) →
      l.foldl (fun ret it => if cnf then (ret && it.2) else (ret || it.2)) r =
        if l = [] then r else if cnf then (r && V) else (r || V) := by
    intro l
    induction l with
    | nil => intro r _; rfl
    | cons x rest ih =>
      intro r hl
      have hx : x.2 = V := hl x (List.mem_cons_self _ _)
      rw [List.foldl_cons, ih _ (fun e he => hl e (List.mem_cons_of_mem _ he)), hx]
      cases cnf <;> cases r <;> cases V <;> by_cases hr : rest = [] <;> simp [hr]
  unfold combine_groups
  rw [hfold m cnf hall, if_neg hne]
  cases cnf <;> cases V <;> rfl

/-! ## The two loops of `filter_matches` -/

theorem merge_value_again (cnf : Bool) (acc : Option Bool) (val : Bool) :
    merge_value cnf (some (merge_value cnf acc val)) val = merge_value cnf acc val := by
  cases acc with
  | none => cases cnf <;> cases val <;> rfl
  | some cur => cases cnf <;> cases cur <;> cases val <;> rfl

theorem fold_groups_cons (cnf val : Bool) (node : xml_node) (rest : List xml_node)
    (m : GroupMap) :
    fold_groups cnf val (node :: rest) m =
      match parse_integer (some node) "Group ID" 0 INT32_MAX with
      | .error err => .error err
      | .ok g => fold_groups cnf val rest (map_set m g (merge_value cnf (map_find m g) val)) := by
  simp only [fold_groups]
  cases parse_integer (some node) "Group ID" 0 INT32_MAX with
  | error err => rfl
  | ok g =>
    simp only
    cases map_find m g <;> rfl

theorem has_group_id_cons (node : xml_node) (rest : List xml_node) (k : Int) :
    has_group_id (node :: rest) k ↔
      parse_integer (some node) "Group ID" 0 INT32_MAX = .ok k ∨ has_group_id rest k := by
  simp [has_group_id]

theorem fold_groups_spec (cnf val : Bool) (nodes : List xml_node) (m m' : GroupMap)
    (hok : fold_groups cnf val nodes m = .ok m') (hm : keys_strict m) :
    keys_strict m' ∧ group_ids_valid nodes = true ∧
    (∀ k, has_group_id nodes k → map_find m' k = some (merge_value cnf (map_find m k) val)) ∧
    (∀ k, ¬ has_group_id nodes k → map_find m' k = map_find m k) := by
  induction nodes generalizing m with
  | nil =>
    simp only [fold_groups, Except.ok.injEq] at hok
    subst hok
    refine ⟨hm, rfl, ?_, fun _ _ => rfl⟩
    intro k hk
    obtain ⟨n, hn, _⟩ := hk
    simp at hn
  | cons node rest ih =>
    rw [fold_groups_cons] at hok
    cases hp : parse_integer (some node) "Group ID" 0 INT32_MAX with
    | error err => simp [hp] at hok
    | ok g =>
      simp only [hp] at hok
      obtain ⟨hs, hv, hin, hout⟩ := ih _ hok (map_set_strict m g _ hm)
      refine ⟨hs, ?_, ?_, ?_⟩
      · simp only [group_ids_valid, List.all_cons, hp, Except.toBool, Bool.true_and]
        exact hv
      · intro k hk
        by_cases hrest : has_group_id rest k
        · rw [hin k hrest, map_find_map_set]
          by_cases hkg : k = g
          · subst hkg
            rw [if_pos rfl, merge_value_again]
          · rw [if_neg hkg]
        · rw [hout k hrest, map_find_map_set]
          rcases (has_group_id_cons node rest k).1 hk with h | h
          · rw [hp] at h
            cases h
            rw [if_pos rfl]
          · exact absurd h hrest
      · intro k hk
        have hrest : ¬ has_group_id rest k := fun h => hk ((has_group_id_cons node rest k).2 (Or.inr h))
        have hkg : ¬ k = g := by
          intro e
          subst e
          exact hk ((has_group_id_cons node rest k).2 (Or.inl hp))
        rw [hout k hrest, map_find_map_set, if_neg hkg]

theorem fold_groups_total (cnf val : Bool) (nodes : List xml_node) (m : GroupMap)
    (hvalid : group_ids_valid nodes = true) : ∃ m', fold_groups cnf val nodes m = .ok m' := by
  induction nodes generalizing m with
  | nil => exact ⟨m, rfl⟩
  | cons node rest ih =>
    simp only [group_ids_valid, List.all_cons, Bool.and_eq_true] at hvalid
    rw [fold_groups_cons]
    cases hp : parse_integer (some node) "Group ID" 0 INT32_MAX with
    | error err => simp [hp, Except.toBool] at hvalid
    | ok g => exact ih _ hvalid.2

theorem fold_spts_cons {SessionCase Msg : Type}
    (spt_matches : SessionCase → Msg → xml_node → Except ifc_error Bool)
    (session_case : SessionCase) (msg : Msg) (trigger : xml_node) (cnf : Bool)
    (spt : xml_node) (rest : List xml_node) (groups : GroupMap) :
    fold_spts spt_matches session_case msg trigger cnf (spt :: rest) groups =
      match spt_value spt_matches session_case msg spt with
      | .error err => .error err
      | .ok val =>
        match fold_groups cnf val (trigger.child_nodes "Group") groups with
        | .error err => .error err
        | .ok groups' => fold_spts spt_matches session_case msg trigger cnf rest groups' := by
  simp only [fold_spts, spt_value, spt_negated, parse_bool]
  cases hneg : spt.first_node "ConditionNegated" with
  | none =>
    cases spt_matches session_case msg spt <;> rfl
  | some neg_node =>
    cases spt_matches session_case msg spt <;> rfl

theorem groups_hold_step (cnf val : Bool) (nodes : List xml_node) (m m' : GroupMap)
    (acc : Option Bool) (hm : groups_hold nodes m acc)
    (hok : fold_groups cnf val nodes m = .ok m') :
    groups_hold nodes m' (some (merge_value cnf acc val)) ∧ group_ids_valid nodes = true := by
  obtain ⟨hs, hin, hout⟩ := hm
  obtain ⟨hs', hv, hin', hout'⟩ := fold_groups_spec cnf val nodes m m' hok hs
  refine ⟨⟨hs', ?_, ?_⟩, hv⟩
  · intro k hk
    rw [hin' k hk, hin k hk]
  · intro k hk
    rw [hout' k hk, hout k hk]

theorem fold_spts_spec {SessionCase Msg : Type}
    (spt_matches : SessionCase → Msg → xml_node → Except ifc_error Bool)
    (session_case : SessionCase) (msg : Msg) (trigger : xml_node) (cnf : Bool)
    (spts : List xml_node) (m m' : GroupMap) (acc : Option Bool)
    (hm : groups_hold (trigger.child_nodes "Group") m acc)
    (hok : fold_spts spt_matches session_case msg trigger cnf spts m = .ok m') :
    (∀ s ∈ spts, ∃ v, spt_value spt_matches session_case msg s = .ok v) ∧
    (spts ≠ [] → group_ids_valid (trigger.child_nodes "Group") = true) ∧
    groups_hold (trigger.child_nodes "Group") m'
      ((spts.map (fun s => value_of (spt_value spt_matches session_case msg s))).foldl
        (fun a v => some (merge_value cnf a v)) acc) := by
  induction spts generalizing m acc with
  | nil =>
    simp only [fold_spts, Except.ok.injEq] at hok
    subst hok
    exact ⟨fun s hs => absurd hs (List.not_mem_nil s), fun h => absurd rfl h, hm⟩
  | cons spt rest ih =>
    rw [fold_spts_cons] at hok
    cases hv : spt_value spt_matches session_case msg spt with
    | error err => simp [hv] at hok
    | ok val =>
      simp only [hv] at hok
      cases hg : fold_groups cnf val (trigger.child_nodes "Group") m with
      | error err => simp [hg] at hok
      | ok m1 =>
        simp only [hg] at hok
        obtain ⟨hm1, hvalid⟩ := groups_hold_step cnf val _ m m1 acc hm hg
        obtain ⟨hvals, _, hfinal⟩ := ih m1 _ hm1 hok
        refine ⟨?_, fun _ => hvalid, ?_⟩
        · intro s hs
          rcases List.mem_cons.1 hs with rfl | hs
          · exact ⟨val, hv⟩
          · exact hvals s hs
        · simpa [List.map_cons, List.foldl_cons, hv, value_of] using hfinal

theorem fold_spts_total {SessionCase Msg : Type}
    (spt_matches : SessionCase → Msg → xml_node → Except ifc_error Bool)
    (session_case : SessionCase) (msg : Msg) (trigger : xml_node) (cnf : Bool)
    (spts : List xml_node) (m : GroupMap)
    (hvals : ∀ s ∈ spts, ∃ v, spt_value spt_matches session_case msg s = .ok v)
    (hvalid : spts ≠ [] → group_ids_valid (trigger.child_nodes "Group") = true) :
    ∃ m', fold_spts spt_matches session_case msg trigger cnf spts m = .ok m' := by
  induction spts generalizing m with
  | nil => exact ⟨m, rfl⟩
  | cons spt rest ih =>
    have hv := hvalid (List.cons_ne_nil _ _)
    obtain ⟨val, hval⟩ := hvals spt (List.mem_cons_self _ _)
    obtain ⟨m1, hm1⟩ := fold_groups_total cnf val (trigger.child_nodes "Group") m hv
    rw [fold_spts_cons]
    simp only [hval, hm1]
    exact ih m1 (fun s hs => hvals s (List.mem_cons_of_mem _ hs)) (fun _ => hv)

theorem foldl_merge_some (cnf : Bool) (vals : List Bool) (V : Bool) :
    vals.foldl (fun a v => some (merge_value cnf a v)) (some V) =
      some (if cnf then (V || vals.any id) else (V && vals.all id)) := by
  induction vals generalizing V with
  | nil => cases cnf <;> simp
  | cons v rest ih =>
    rw [List.foldl_cons, ih]
    cases cnf <;> simp [merge_value, Bool.or_assoc, Bool.and_assoc]

theorem foldl_merge_none (cnf : Bool) (vals : List Bool) :
    vals.foldl (fun a v => some (merge_value cnf a v)) none =
      if vals = [] then none else some (if cnf then vals.any id else vals.all id) := by
  cases vals with
  | nil => rfl
  | cons v rest =>
    have hfirst : merge_value cnf none v = v := rfl
    rw [List.foldl_cons, hfirst, foldl_merge_some]
    cases cnf <;> simp

theorem combine_groups_folded (cnf : Bool) (nodes : List xml_node) (m : GroupMap)
    (vals : List Bool)
    (hm : groups_hold nodes m (vals.foldl (fun a v => some (merge_value cnf a v)) none))
    (hvalid : vals ≠ [] → group_ids_valid nodes = true) :
    combine_groups cnf m = folded_verdict cnf vals nodes.isEmpty := by
  obtain ⟨hs, hin, hout⟩ := hm
  rw [foldl_merge_none] at hin
  by_cases hvals : vals = []
  · subst hvals
    have hnone : ∀ k, map_find m k = none := by
      intro k
      by_cases hk : has_group_id nodes k
      · simpa using hin k hk
      · exact hout k hk
    rw [map_find_nil_of_none m hnone]
    simp [combine_groups, folded_verdict]
  · rw [if_neg hvals] at hin
    cases nodes with
    | nil =>
      have hnone : ∀ k, map_find m k = none := by
        intro k
        apply hout
        rintro ⟨n, hn, _⟩
        simp at hn
      rw [map_find_nil_of_none m hnone]
      simp [combine_groups, folded_verdict]
    | cons node rest =>
      have hv := hvalid hvals
      simp only [group_ids_valid, List.all_cons, Bool.and_eq_true] at hv
      cases hp : parse_integer (some node) "Group ID" 0 INT32_MAX with
      | error err => simp [hp, Except.toBool] at hv
      | ok g =>
        have hg : has_group_id (node :: rest) g := (has_group_id_cons node rest g).2 (Or.inl hp)
        have hfind := hin g hg
        have hne : m ≠ [] := by
          intro e
          rw [e] at hfind
          simp [map_find] at hfind
        have hall : ∀ e ∈ m, e.2 = (if cnf then vals.any id else vals.all id) := by
          intro e he
          have hfe := map_find_of_mem m e.1 e.2 hs he
          by_cases hk : has_group_id (node :: rest) e.1
          · rw [hin e.1 hk] at hfe
            exact (Option.some.inj hfe).symm
          · rw [hout e.1 hk] at hfe
            cases hfe
        rw [combine_groups_uniform cnf m _ hall hne]
        have hemp : vals.isEmpty = false := by
          cases vals with
          | nil => exact absurd rfl hvals
          | cons _ _ => rfl
        simp [folded_verdict, hemp]

theorem filter_matches_after_indicator {SessionCase Msg : Type}
    (spt_matches : SessionCase → Msg → xml_node → Except ifc_error Bool)
    (session_case : SessionCase) (is_registered : Bool) (msg : Msg) (ifc : xml_node) :
    filter_matches spt_matches session_case is_registered msg ifc =
      match indicator_disagrees ifc is_registered with
      | .error err => .error err
      | .ok true => .ok false
      | .ok false =>
        match ifc.first_node "TriggerPoint" with
        | none => .ok true
        | some trigger =>
          match parse_bool (trigger.first_node "ConditionTypeCNF") "ConditionTypeCNF" with
          | .error err => .error err
          | .ok cnf =>
            match fold_spts spt_matches session_case msg trigger cnf
                (trigger.child_nodes "SPT") [] with
            | .error err => .error err
            | .ok groups => .ok (combine_groups cnf groups) := rfl

theorem groups_hold_empty (nodes : List xml_node) : groups_hold nodes [] none :=
  ⟨List.Pairwise.nil, fun _ _ => rfl, fun _ _ => rfl⟩

/-- The verdict of `filter_matches` on a criterion whose indicator does not disagree and
whose `TriggerPoint` is present, in closed form. -/
theorem filter_matches_closed_form {SessionCase Msg : Type}
    (spt_matches : SessionCase → Msg → xml_node → Except ifc_error Bool)
    (session_case : SessionCase) (is_registered : Bool) (msg : Msg) (ifc trigger : xml_node)
    (cnf b : Bool)
    (hind : indicator_disagrees ifc is_registered = .ok false)
    (htrigger : ifc.first_node "TriggerPoint" = some trigger)
    (hcnf : parse_bool (trigger.first_node "ConditionTypeCNF") "ConditionTypeCNF" = .ok cnf) :
    filter_matches spt_matches session_case is_registered msg ifc = .ok b ↔
      (∀ s ∈ trigger.child_nodes "SPT", ∃ v, spt_value spt_matches session_case msg s = .ok v) ∧
      (trigger.child_nodes "SPT" ≠ [] →
        group_ids_valid (trigger.child_nodes "Group") = true) ∧
      b = folded_verdict cnf
        ((trigger.child_nodes "SPT").map
          (fun s => value_of (spt_value spt_matches session_case msg s)))
        (trigger.child_nodes "Group").isEmpty := by
  rw [filter_matches_after_indicator]
  simp only [hind, htrigger, hcnf]
  have hverdict : ∀ m, fold_spts spt_matches session_case msg trigger cnf
      (trigger.child_nodes "SPT") [] = .ok m →
      combine_groups cnf m = folded_verdict cnf
        ((trigger.child_nodes "SPT").map
          (fun s => value_of (spt_value spt_matches session_case msg s)))
        (trigger.child_nodes "Group").isEmpty := by
    intro m hm
    obtain ⟨_, hvalid, hfinal⟩ := fold_spts_spec spt_matches session_case msg trigger cnf _ []
      m none (groups_hold_empty _) hm
    apply combine_groups_folded cnf _ m _ hfinal
    intro hne
    apply hvalid
    intro e
    exact hne (by rw [e]; rfl)
  constructor
  · intro hok
    cases hf : fold_spts spt_matches session_case msg trigger cnf
        (trigger.child_nodes "SPT") [] with
    | error err => simp [hf] at hok
    | ok m =>
      simp only [hf, Except.ok.injEq] at hok
      obtain ⟨hvals, hvalid, _⟩ := fold_spts_spec spt_matches session_case msg trigger cnf _
        [] m none (groups_hold_empty _) hf
      exact ⟨hvals, hvalid, by rw [← hok, hverdict m hf]⟩
  · rintro ⟨hvals, hvalid, hb⟩
    obtain ⟨m, hm⟩ := fold_spts_total spt_matches session_case msg trigger cnf _ [] hvals
      hvalid
    simp only [hm, Except.ok.injEq]
    rw [hb, hverdict m hm]

theorem folded_verdict_perm (cnf : Bool) (vals vals' : List Bool) (no_groups : Bool)
    (h : vals'.Perm vals) : folded_verdict cnf vals' no_groups = folded_verdict cnf vals no_groups := by
  have hany : vals'.any id = vals.any id := by
    rw [Bool.eq_iff_iff]
    simp only [List.any_eq_true]
    exact ⟨fun ⟨x, hx, hp⟩ => ⟨x, h.mem_iff.1 hx, hp⟩, fun ⟨x, hx, hp⟩ => ⟨x, h.mem_iff.2 hx, hp⟩⟩
  have hall : vals'.all id = vals.all id := by
    rw [Bool.eq_iff_iff]
    simp only [List.all_eq_true]
    exact ⟨fun hp x hx => hp x (h.mem_iff.2 hx), fun hp x hx => hp x (h.mem_iff.1 hx)⟩
  unfold folded_verdict
  rw [h.isEmpty_eq, hany, hall]

theorem folded_verdict_dual (cnf : Bool) (vals : List Bool) (no_groups : Bool) :
    folded_verdict (!cnf) (vals.map (fun v => !v)) no_groups =
      !folded_verdict cnf vals no_groups := by
  have hboth : (vals.map (fun v => !v)).any id = (!vals.all id) ∧
      (vals.map (fun v => !v)).all id = (!vals.any id) := by
    induction vals with
    | nil => exact ⟨rfl, rfl⟩
    | cons v rest ih =>
      simp only [List.map_cons, List.any_cons, List.all_cons, ih.1, ih.2, id]
      cases v <;> simp
  obtain ⟨hany, hall⟩ := hboth
  have hemp : (vals.map (fun v => !v)).isEmpty = vals.isEmpty := by cases vals <;> rfl
  unfold folded_verdict
  rw [hemp, hany, hall]
  cases cnf <;> cases vals.isEmpty <;> cases no_groups <;> simp

/-! ## Negation, reordering and duality of triggers -/

/-- C25: when the predicate of an SPT gives `raw`, the value the SPT loop folds into the
groups is `raw` XOR the SPT's negation flag; the flag is false without a
`ConditionNegated` child, so that the value is `raw`, and it is what `parse_bool` reads
from that child otherwise, so that with `ConditionNegated` true the value is the
negation of `raw`. -/
theorem fold_spts_value_xor {SessionCase Msg : Type}
    (spt_matches : SessionCase → Msg → xml_node → Except ifc_error Bool)
    (session_case : SessionCase) (msg : Msg) (trigger : xml_node) (cnf : Bool)
    (spt : xml_node) (rest : List xml_node) (groups : GroupMap) (raw : Bool)
    (hraw : spt_matches session_case msg spt = .ok raw) :
    fold_spts spt_matches session_case msg trigger cnf (spt :: rest) groups =
      (match fold_groups cnf (xor raw (spt_negated spt)) (trigger.child_nodes "Group")
          groups with
        | .error err => .error err
        | .ok groups' => fold_spts spt_matches session_case msg trigger cnf rest groups') ∧
    (spt.first_node "ConditionNegated" = none → xor raw (spt_negated spt) = raw) ∧
    (∀ neg_node, spt.first_node "ConditionNegated" = some neg_node →
      parse_bool (some neg_node) "ConditionNegated" = .ok (spt_negated spt)) ∧
    (spt_negated spt = true → xor raw (spt_negated spt) = !raw) := by
  refine ⟨?_, ?_, ?_, ?_⟩
  · rw [fold_spts_cons]
    simp only [spt_value, hraw]
  · intro h
    simp [spt_negated, h]
  · intro neg_node h
    simp [spt_negated, h, parse_bool]
  · intro h
    rw [h]
    cases raw <;> rfl

/-- C25 at a DNF trigger with a `Group` of its own and one SPT whose predicate is true:
without negation, or with `ConditionNegated` 0, the criterion matches; with
`ConditionNegated` 1 it does not. -/
theorem fold_spts_value_xor_witness :
    xor true (spt_negated (sample_spt [] "INVITE")) = true ∧
    xor true (spt_negated (sample_spt_negated "1" "INVITE")) = false ∧
    filter_matches method_spt_matches () true "INVITE"
      (ifc_stray_group "0" [sample_spt [] "INVITE"]) = .ok true ∧
    filter_matches method_spt_matches () true "INVITE"
      (ifc_stray_group "0" [sample_spt_negated "0" "INVITE"]) = .ok true ∧
    filter_matches method_spt_matches () true "INVITE"
      (ifc_stray_group "0" [sample_spt_negated "1" "INVITE"]) = .ok false :=
  ⟨(fold_spts_value_xor method_spt_matches () "INVITE" (sample_trigger "0" []) false
      (sample_spt [] "INVITE") [] [] true rfl).2.1 rfl,
   (fold_spts_value_xor method_spt_matches () "INVITE" (sample_trigger "0" []) false
      (sample_spt_negated "1" "INVITE") [] [] true rfl).2.2.2 rfl,
   rfl, rfl, rfl⟩

/-- C28: the verdict of `filter_matches` does not depend on the order of the SPT
children of the `TriggerPoint`, nor on the order of the `Group` nodes its inner loop
reads. If a criterion is evaluated without a fault, a second criterion with the same
indicator outcome and the same `ConditionTypeCNF`, whose SPT values are those of the
first in any order (in particular whose SPT children are a reordering of the first's)
and whose `Group` nodes are a reordering of the first's, gets the same verdict. -/
theorem filter_matches_reordered {SessionCase Msg : Type}
    (spt_matches : SessionCase → Msg → xml_node → Except ifc_error Bool)
    (session_case : SessionCase) (is_registered : Bool) (msg : Msg)
    (ifc ifc' trigger trigger' : xml_node) (b : Bool)
    (hind : indicator_disagrees ifc' is_registered = indicator_disagrees ifc is_registered)
    (htrigger : ifc.first_node "TriggerPoint" = some trigger)
    (htrigger' : ifc'.first_node "TriggerPoint" = some trigger')
    (hcnf : trigger'.first_node "ConditionTypeCNF" = trigger.first_node "ConditionTypeCNF")
    (hspts : ((trigger'.child_nodes "SPT").map (spt_value spt_matches session_case msg)).Perm
      ((trigger.child_nodes "SPT").map (spt_value spt_matches session_case msg)))
    (hgroups : (trigger'.child_nodes "Group").Perm (trigger.child_nodes "Group"))
    (hok : filter_matches spt_matches session_case is_registered msg ifc = .ok b) :
    filter_matches spt_matches session_case is_registered msg ifc' = .ok b := by
  cases hi : indicator_disagrees ifc is_registered with
  | error err =>
    rw [filter_matches_after_indicator, hi] at hok
    cases hok
  | ok disagrees =>
    cases disagrees with
    | true =>
      rw [filter_matches_after_indicator, hi] at hok
      rw [filter_matches_after_indicator, hind, hi]
      exact hok
    | false =>
      cases hc : parse_bool (trigger.first_node "ConditionTypeCNF") "ConditionTypeCNF" with
      | error err =>
        rw [filter_matches_after_indicator, hi] at hok
        simp [htrigger, hc] at hok
      | ok cnf =>
        obtain ⟨hvals, hvalid, hb⟩ := (filter_matches_closed_form spt_matches session_case
          is_registered msg ifc trigger cnf b hi htrigger hc).1 hok
        have hlen := hspts.length_eq
        simp only [List.length_map] at hlen
        refine (filter_matches_closed_form spt_matches session_case is_registered msg ifc'
          trigger' cnf b (hind.trans hi) htrigger' (hcnf ▸ hc)).2 ⟨?_, ?_, ?_⟩
        · intro s' hs'
          have hmem := hspts.mem_iff.1 (List.mem_map_of_mem (spt_value spt_matches session_case msg) hs')
          obtain ⟨s, hs, heq⟩ := List.mem_map.1 hmem
          obtain ⟨v, hv⟩ := hvals s hs
          exact ⟨v, heq ▸ hv⟩
        · intro hne
          have hne0 : trigger.child_nodes "SPT" ≠ [] := by
            intro e
            rw [e] at hlen
            exact hne (List.length_eq_zero.1 hlen)
          have hv := hvalid hne0
          simp only [group_ids_valid, List.all_eq_true] at hv ⊢
          exact fun n hn => hv n (hgroups.mem_iff.1 hn)
        · rw [hb, hgroups.isEmpty_eq]
          apply (folded_verdict_perm cnf _ _ _ _).symm
          have := hspts.map value_of
          simpa [List.map_map, Function.comp] using this

/-- C28 at a DNF trigger with two groups of its own and two SPTs, one true and one
false for an INVITE: the verdict with the SPTs and the groups swapped is the verdict
before, false. -/
theorem filter_matches_reordered_witness :
    filter_matches method_spt_matches () true "INVITE"
      (ifc_trigger_groups "0" [leaf "Group" "9", leaf "Group" "7"]
        [sample_spt [] "REGISTER", sample_spt [] "INVITE"]) = .ok false :=
  filter_matches_reordered method_spt_matches () true "INVITE"
    (ifc_trigger_groups "0" [leaf "Group" "7", leaf "Group" "9"]
      [sample_spt [] "INVITE", sample_spt [] "REGISTER"])
    (ifc_trigger_groups "0" [leaf "Group" "9", leaf "Group" "7"]
      [sample_spt [] "REGISTER", sample_spt [] "INVITE"])
    (elem "TriggerPoint" (leaf "ConditionTypeCNF" "0" ::
      ([leaf "Group" "7", leaf "Group" "9"] ++
        [sample_spt [] "INVITE", sample_spt [] "REGISTER"])))
    (elem "TriggerPoint" (leaf "ConditionTypeCNF" "0" ::
      ([leaf "Group" "9", leaf "Group" "7"] ++
        [sample_spt [] "REGISTER", sample_spt [] "INVITE"])))
    false rfl rfl rfl rfl (List.Perm.swap _ _ _) (List.Perm.swap _ _ _) rfl

theorem spt_values_flipped {SessionCase Msg : Type}
    (spt_matches : SessionCase → Msg → xml_node → Except ifc_error Bool)
    (session_case : SessionCase) (msg : Msg) (spts spts' : List xml_node)
    (hflip : List.Forall₂ (fun s s' =>
      spt_matches session_case msg s' = spt_matches session_case msg s ∧
        spt_negated s' = !spt_negated s) spts spts')
    (hvals : ∀ s ∈ spts, ∃ v, spt_value spt_matches session_case msg s = .ok v) :
    (∀ s' ∈ spts', ∃ v, spt_value spt_matches session_case msg s' = .ok v) ∧
    spts'.map (fun s => value_of (spt_value spt_matches session_case msg s)) =
      (spts.map (fun s => value_of (spt_value spt_matches session_case msg s))).map
        (fun v => !v) := by
  induction hflip with
  | nil => exact ⟨fun s hs => absurd hs (List.not_mem_nil s), rfl⟩
  | @cons s s' rest rest' hhead _ ih =>
    obtain ⟨hrest, hmap⟩ := ih (fun x hx => hvals x (List.mem_cons_of_mem _ hx))
    obtain ⟨v, hv⟩ := hvals s (List.mem_cons_self _ _)
    have hs' : spt_value spt_matches session_case msg s' = .ok (!v) := by
      unfold spt_value at hv ⊢
      rw [hhead.1, hhead.2]
      cases hm : spt_matches session_case msg s with
      | error err => simp [hm] at hv
      | ok raw =>
        simp only [hm, Except.ok.injEq] at hv ⊢
        rw [← hv]
        cases raw <;> cases spt_negated s <;> rfl
    refine ⟨?_, ?_⟩
    · intro x hx
      rcases List.mem_cons.1 hx with rfl | hx
      · exact ⟨_, hs'⟩
      · exact hrest x hx
    · have hh : value_of (spt_value spt_matches session_case msg s') =
          !value_of (spt_value spt_matches session_case msg s) := by rw [hs', hv]; rfl
      rw [List.map_cons, List.map_cons, List.map_cons, hmap, hh]

/-- C29: flipping `ConditionTypeCNF` and the negation of every SPT negates the verdict
of `filter_matches`. If a criterion whose indicator does not disagree is evaluated
without a fault, a second one whose `ConditionTypeCNF` is the opposite, whose SPTs are
in turn those of the first with the same predicate result and the opposite negation
flag, and whose `Group` nodes are the same, gets the opposite verdict; triggers without
SPT or without group included. -/
theorem filter_matches_dual {SessionCase Msg : Type}
    (spt_matches : SessionCase → Msg → xml_node → Except ifc_error Bool)
    (session_case : SessionCase) (is_registered : Bool) (msg : Msg)
    (ifc ifc' trigger trigger' : xml_node) (cnf b : Bool)
    (hind : indicator_disagrees ifc is_registered = .ok false)
    (hind' : indicator_disagrees ifc' is_registered = .ok false)
    (htrigger : ifc.first_node "TriggerPoint" = some trigger)
    (htrigger' : ifc'.first_node "TriggerPoint" = some trigger')
    (hcnf : parse_bool (trigger.first_node "ConditionTypeCNF") "ConditionTypeCNF" = .ok cnf)
    (hcnf' : parse_bool (trigger'.first_node "ConditionTypeCNF") "ConditionTypeCNF" =
      .ok (!cnf))
    (hflip : List.Forall₂ (fun s s' =>
      spt_matches session_case msg s' = spt_matches session_case msg s ∧
        spt_negated s' = !spt_negated s)
      (trigger.child_nodes "SPT") (trigger'.child_nodes "SPT"))
    (hgroups : trigger'.child_nodes "Group" = trigger.child_nodes "Group")
    (hok : filter_matches spt_matches session_case is_registered msg ifc = .ok b) :
    filter_matches spt_matches session_case is_registered msg ifc' = .ok (!b) := by
  obtain ⟨hvals, hvalid, hb⟩ := (filter_matches_closed_form spt_matches session_case
    is_registered msg ifc trigger cnf b hind htrigger hcnf).1 hok
  obtain ⟨hvals', hmap⟩ := spt_values_flipped spt_matches session_case msg _ _ hflip hvals
  refine (filter_matches_closed_form spt_matches session_case is_registered msg ifc'
    trigger' (!cnf) (!b) hind' htrigger' hcnf').2 ⟨hvals', ?_, ?_⟩
  · intro hne
    rw [hgroups]
    apply hvalid
    intro e
    have hlen := hflip.length_eq
    rw [e] at hlen
    exact hne (List.length_eq_zero.1 hlen.symm)
  · rw [hmap, hgroups, folded_verdict_dual, hb]

/-- C29 at a CNF trigger with a group of its own and two SPTs, true and false for an
INVITE, which matches: the DNF trigger with both SPTs negated does not match; and the
empty CNF trigger matches while the empty DNF trigger does not. -/
theorem filter_matches_dual_witness :
    filter_matches method_spt_matches () true "INVITE"
      (ifc_stray_group "0"
        [sample_spt_negated "1" "INVITE", sample_spt_negated "1" "REGISTER"]) = .ok (!true) ∧
    filter_matches method_spt_matches () true "INVITE" (ifc_empty_trigger "0") = .ok (!true) :=
  ⟨filter_matches_dual method_spt_matches () true "INVITE"
      (ifc_stray_group "1"
        [sample_spt_negated "0" "INVITE", sample_spt_negated "0" "REGISTER"])
      (ifc_stray_group "0"
        [sample_spt_negated "1" "INVITE", sample_spt_negated "1" "REGISTER"])
      (elem "TriggerPoint" (leaf "ConditionTypeCNF" "1" :: leaf "Group" "7" ::
        [sample_spt_negated "0" "INVITE", sample_spt_negated "0" "REGISTER"]))
      (elem "TriggerPoint" (leaf "ConditionTypeCNF" "0" :: leaf "Group" "7" ::
        [sample_spt_negated "1" "INVITE", sample_spt_negated "1" "REGISTER"]))
      true true rfl rfl rfl rfl rfl rfl
      (List.Forall₂.cons ⟨rfl, rfl⟩ (List.Forall₂.cons ⟨rfl, rfl⟩ List.Forall₂.nil)) rfl rfl,
   filter_matches_dual method_spt_matches () true "INVITE" (ifc_empty_trigger "1")
      (ifc_empty_trigger "0") (sample_trigger "1" []) (sample_trigger "0" []) true true
      rfl rfl rfl rfl rfl rfl List.Forall₂.nil rfl rfl⟩

/-! ## Number translation: loading, chaining and naming -/

/-- C21: when the configuration file cannot be read, or its text does not parse as JSON,
or the document has no `number_blocks` member, the construction of the static-block
service raises no error and leaves it with zero rules, and every lookup of such a
service returns the empty string. -/
theorem static_ruleset_invalid (read_file : String → Except String String)
    (parse_json : String → Except String json_value)
    (decode_block : json_value → Option number_block)
    (apply_block : number_block → String → Option String) (path : String)
    (hinvalid : (∃ err, read_file path = .error err) ∨
      (∃ text err, read_file path = .ok text ∧ parse_json text = .error err) ∨
      (∃ text root, read_file path = .ok text ∧ parse_json text = .ok root ∧
        root.member "number_blocks" = none)) :
    JSONEnumService.load read_file parse_json decode_block path = .ok [] ∧
    ∀ user, JSONEnumService.lookup_uri_from_user apply_block [] user = "" := by
  constructor
  · unfold JSONEnumService.load
    rcases hinvalid with ⟨err, h⟩ | ⟨text, err, h, hp⟩ | ⟨text, root, h, hp, hm⟩
    · simp [h]
    · simp [h, hp]
    · simp [h, hp, hm]
  · intro user
    unfold JSONEnumService.lookup_uri_from_user translate static_backend
    split <;> rfl

/-- C21 at a missing file, at a file that is not JSON and at a document without
`number_blocks`: each service has no rule, and the lookup of `+15108580271` is empty. -/
theorem static_ruleset_invalid_witness :
    (JSONEnumService.load sample_read_file sample_parse_json sample_decode_block
        "NONEXISTENT_FILE.json" = .ok [] ∧
      JSONEnumService.load sample_read_file sample_parse_json sample_decode_block
        "test_enum_parse_error.json" = .ok [] ∧
      JSONEnumService.load sample_read_file sample_parse_json sample_decode_block
        "test_enum_missing_block.json" = .ok []) ∧
    JSONEnumService.lookup_uri_from_user sample_apply_block [] "+15108580271" = "" :=
  ⟨⟨(static_ruleset_invalid sample_read_file sample_parse_json sample_decode_block
        sample_apply_block "NONEXISTENT_FILE.json" (Or.inl ⟨_, rfl⟩)).1,
      (static_ruleset_invalid sample_read_file sample_parse_json sample_decode_block
        sample_apply_block "test_enum_parse_error.json"
        (Or.inr (Or.inl ⟨_, _, rfl, rfl⟩))).1,
      (static_ruleset_invalid sample_read_file sample_parse_json sample_decode_block
        sample_apply_block "test_enum_missing_block.json"
        (Or.inr (Or.inr ⟨_, _, rfl, rfl, rfl⟩))).1⟩,
    (static_ruleset_invalid sample_read_file sample_parse_json sample_decode_block
      sample_apply_block "NONEXISTENT_FILE.json" (Or.inl ⟨_, rfl⟩)).2 "+15108580271"⟩

theorem key_to_domain_digits (key suffix : String) :
    key_to_domain (String.mk (key.toList.filter isdigit)) suffix = key_to_domain key suffix := by
  simp [key_to_domain, List.filter_filter]

/-- C22: when the first record that applies in the first reply is non-terminal, the
DNS-chain backend issues a second query, at the name made of the digits of the rewrite
result; when the first record that applies in that reply is terminal, the result is its
rewrite of the number, after exactly 2 queries. -/
theorem dns_backend_follow_up (regex : String → String → String → regex_result)
    (dns : String → Option (List ares_naptr_reply)) (suffix number next uri : String)
    (reply reply' : List ares_naptr_reply) (r r' : ares_naptr_reply)
    (hreply : dns (key_to_domain number suffix) = some reply)
    (hfirst : first_match regex number (sort_rules (reply.filter eligible)) = some (r, next))
    (hnon_terminal : flags_kind r.flags = .non_terminal)
    (hreply' : dns (key_to_domain (String.mk (next.toList.filter isdigit)) suffix) =
      some reply')
    (hfirst' : first_match regex number (sort_rules (reply'.filter eligible)) = some (r', uri))
    (hterminal : flags_kind r'.flags = .terminal) :
    dns_backend regex dns suffix number = (uri, 2) := by
  rw [key_to_domain_digits] at hreply'
  unfold dns_backend MAX_DNS_QUERIES
  simp only [dns_chain, hreply, hfirst, hnon_terminal, hreply', hfirst', hterminal]

/-- C22 at the database of `NonTerminalRuleTest`: translating 1234 issues 2 queries and
returns the SIP URI of 1234. -/
theorem dns_backend_follow_up_witness :
    DNSEnumService.lookup_uri_from_user sample_regex non_terminal_dns ".e164.arpa" "1234" =
      ("sip:1234@ut.cw-ngv.com", 2) :=
  dns_backend_follow_up sample_regex non_terminal_dns ".e164.arpa" "1234" "5678"
    "sip:1234@ut.cw-ngv.com" [⟨"", "e2u+sip", "!1234!5678!", ".", 1, 1⟩] basic_naptr_reply
    ⟨"", "e2u+sip", "!1234!5678!", ".", 1, 1⟩
    ⟨"u", "e2u+sip", "!(^.*$)!sip:\\1@ut.cw-ngv.com!", ".", 1, 1⟩ rfl rfl rfl rfl rfl rfl

theorem intercalate_singletons (l : List Char) :
    List.intercalate ['.'] (l.map (fun d => [d])) = List.intersperse '.' l := by
  have hgen : ∀ (l : List Char) (d : Char),
      (List.intersperse ['.'] ((d :: l).map (fun d => [d]))).flatten =
        List.intersperse '.' (d :: l) := by
    intro l
    induction l with
    | nil => intro d; rfl
    | cons e rest ih =>
      intro d
      have := ih e
      simp only [List.map_cons, List.intersperse_cons_cons, List.flatten_cons,
        List.singleton_append] at this ⊢
      rw [this]
  cases l with
  | nil => rfl
  | cons d rest => exact hgen rest d

/-- C24: the DNS name of a key is made of the digits of the key in reverse order, one
per label, joined by dots and followed by the suffix; a leading `+` adds no label; and
the backend queries that name first: without a reply there, the translation ends after
one query. -/
theorem key_to_domain_labels (regex : String → String → String → regex_result)
    (dns : String → Option (List ares_naptr_reply)) (key suffix : String) :
    (key_to_domain key suffix).toList =
      List.intercalate ['.'] (((key.toList.filter isdigit).reverse).map (fun d => [d])) ++
        suffix.toList ∧
    key_to_domain ("+" ++ key) suffix = key_to_domain key suffix ∧
    key_to_domain "1234" ".e164.arpa" = "4.3.2.1.e164.arpa" ∧
    key_to_domain "+1234" ".e164.arpa" = "4.3.2.1.e164.arpa" ∧
    key_to_domain "1234" ".e164.arpa.cw-ngv.com" = "4.3.2.1.e164.arpa.cw-ngv.com" ∧
    (dns (key_to_domain key suffix) = none → dns_backend regex dns suffix key = ("", 1)) := by
  refine ⟨?_, ?_, by decide, by decide, by decide, ?_⟩
  · rw [intercalate_singletons]
    rfl
  · have hplus : isdigit '+' = false := by decide
    simp [key_to_domain, List.filter_cons, hplus]
  · intro hnone
    unfold dns_backend MAX_DNS_QUERIES
    simp only [dns_chain, hnone]

/-- C24 at the database of `BasicTest`: 1234 and +1234 are both answered from the name
`4.3.2.1.e164.arpa`, and a resolver without that name ends the translation after one
query. -/
theorem key_to_domain_labels_witness :
    DNSEnumService.lookup_uri_from_user sample_regex
      (table_dns [("4.3.2.1.e164.arpa", basic_naptr_reply)]) ".e164.arpa" "1234" =
        ("sip:1234@ut.cw-ngv.com", 1) ∧
    DNSEnumService.lookup_uri_from_user sample_regex
      (table_dns [("4.3.2.1.e164.arpa", basic_naptr_reply)]) ".e164.arpa" "+1234" =
        ("sip:+1234@ut.cw-ngv.com", 1) ∧
    DNSEnumService.lookup_uri_from_user sample_regex
      (table_dns [("1.2.3.4.e164.arpa", basic_naptr_reply)]) ".e164.arpa" "1234" = ("", 1) :=
  ⟨rfl, rfl,
   (key_to_domain_labels sample_regex (table_dns [("1.2.3.4.e164.arpa", basic_naptr_reply)])
      "1234" ".e164.arpa").2.2.2.2.2 rfl⟩

/-! ## Number translation: records that do not apply -/

theorem insert_rule_head (r : ares_naptr_reply) (rules : List ares_naptr_reply)
    (hle : ∀ y ∈ rules, rule_le r y = true) : insert_rule r rules = r :: rules := by
  cases rules with
  | nil => rfl
  | cons y ys => simp [insert_rule, hle y (List.mem_cons_self _ _)]

theorem insert_rule_filter (p : ares_naptr_reply → Bool) (r : ares_naptr_reply)
    (rules : List ares_naptr_reply)
    (hsorted : rules.Pairwise (fun a b => rule_le a b = true)) :
    (insert_rule r rules).filter p =
      if p r = true then insert_rule r (rules.filter p) else rules.filter p := by
  induction rules with
  | nil => by_cases hp : p r = true <;> simp [insert_rule, hp]
  | cons y ys ih =>
    have hs := List.pairwise_cons.1 hsorted
    have hdef : insert_rule r (y :: ys) =
        if rule_le r y = true then r :: y :: ys else y :: insert_rule r ys := rfl
    rw [hdef]
    split
    · rename_i hry
      by_cases hp : p r = true
      · rw [if_pos hp, List.filter_cons, if_pos hp]
        symm
        apply insert_rule_head
        intro z hz
        have hz' := (List.mem_filter.1 hz).1
        rcases List.mem_cons.1 hz' with rfl | hz'
        · exact hry
        · exact rule_le_trans r y z hry (hs.1 z hz')
      · rw [if_neg hp, List.filter_cons, if_neg hp]
    · rename_i hry
      rw [List.filter_cons, ih hs.2]
      by_cases hy : p y = true
      · rw [if_pos hy, List.filter_cons, if_pos hy]
        by_cases hp : p r = true
        · rw [if_pos hp, if_pos hp]
          have hdef' : insert_rule r (y :: ys.filter p) =
              if rule_le r y = true then r :: y :: ys.filter p
              else y :: insert_rule r (ys.filter p) := rfl
          rw [hdef', if_neg hry]
        · rw [if_neg hp, if_neg hp]
      · rw [if_neg hy, List.filter_cons, if_neg hy]

theorem sort_rules_filter (p : ares_naptr_reply → Bool) (rules : List ares_naptr_reply) :
    (sort_rules rules).filter p = sort_rules (rules.filter p) := by
  induction rules with
  | nil => rfl
  | cons r rs ih =>
    simp only [sort_rules]
    rw [insert_rule_filter p r _ (sort_rules_sorted rs), ih, List.filter_cons]
    by_cases hp : p r = true
    · rw [if_pos hp, if_pos hp]
      rfl
    · rw [if_neg hp, if_neg hp]

theorem first_match_filter (regex : String → String → String → regex_result) (number : String)
    (rules : List ares_naptr_reply) :
    first_match regex number (rules.filter (rewrite_applies regex number)) =
      first_match regex number rules := by
  induction rules with
  | nil => rfl
  | cons r rs ih =>
    cases hr : apply_rewrite regex r number with
    | none =>
      have hp : rewrite_applies regex number r = false := by simp [rewrite_applies, hr]
      simp only [List.filter_cons, hp, first_match, hr, Bool.false_eq_true, if_false]
      exact ih
    | some uri =>
      have hp : rewrite_applies regex number r = true := by simp [rewrite_applies, hr]
      simp only [List.filter_cons, hp, if_true, first_match, hr]

theorem first_match_sort_applies (regex : String → String → String → regex_result)
    (number : String) (rules : List ares_naptr_reply) :
    first_match regex number (sort_rules (rules.filter (rewrite_applies regex number))) =
      first_match regex number (sort_rules rules) := by
  rw [← sort_rules_filter, first_match_filter]

theorem dns_chain_applying (regex : String → String → String → regex_result)
    (dns dns' : String → Option (List ares_naptr_reply)) (suffix number : String)
    (hfiltered : ∀ name,
      dns' name = (dns name).map (List.filter (rewrite_applies regex number)))
    (budget : Nat) (key : String) (queries : Nat) :
    dns_chain regex dns' suffix number budget key queries =
      dns_chain regex dns suffix number budget key queries := by
  induction budget generalizing key queries with
  | zero => rfl
  | succ budget ih =>
    unfold dns_chain
    rw [hfiltered]
    cases dns (key_to_domain key suffix) with
    | none => rfl
    | some reply =>
      have hcomm : (reply.filter (rewrite_applies regex number)).filter eligible =
          (reply.filter eligible).filter (rewrite_applies regex number) := by
        simp only [List.filter_filter, Bool.and_comm]
      simp only [Option.map_some', hcomm, first_match_sort_applies, ih]

theorem first_match_none (regex : String → String → String → regex_result) (number : String)
    (rules : List ares_naptr_reply)
    (hnone : ∀ r ∈ rules, apply_rewrite regex r number = none) :
    first_match regex number rules = none := by
  induction rules with
  | nil => rfl
  | cons r rs ih =>
    simp only [first_match, hnone r (List.mem_cons_self _ _)]
    exact ih (fun x hx => hnone x (List.mem_cons_of_mem _ hx))

/-- C23: the rewrite of a record does not apply when its rewrite string does not have
three fields, when its regex is invalid, or when the regex does not match the number;
the DNS-chain backend gives the same result and query count when the records that do
not apply are removed from every reply, so that the next record in order is tried; and
when no eligible record of the first reply applies, the result is the empty string
after that one query. -/
theorem dns_backend_passes_over (regex : String → String → String → regex_result)
    (dns : String → Option (List ares_naptr_reply)) (suffix number : String) :
    (∀ r : ares_naptr_reply, rewrite_applies regex number r = false ↔
      (rewrite_fields r.regexp = none ∨
        ∃ fields, rewrite_fields r.regexp = some fields ∧
          (regex fields.1 fields.2.1 number = .invalid ∨
            regex fields.1 fields.2.1 number = .no_match))) ∧
    (∀ dns' : String → Option (List ares_naptr_reply),
      (∀ name, dns' name = (dns name).map (List.filter (rewrite_applies regex number))) →
      dns_backend regex dns' suffix number = dns_backend regex dns suffix number) ∧
    (∀ reply, dns (key_to_domain number suffix) = some reply →
      (∀ r ∈ reply, eligible r = true → rewrite_applies regex number r = false) →
      dns_backend regex dns suffix number = ("", 1)) := by
  refine ⟨?_, ?_, ?_⟩
  · intro r
    unfold rewrite_applies apply_rewrite
    cases hf : rewrite_fields r.regexp with
    | none => simp
    | some fields =>
      cases hr : regex fields.1 fields.2.1 number <;> simp [hr]
  · intro dns' hfiltered
    exact dns_chain_applying regex dns dns' suffix number hfiltered _ _ _
  · intro reply hreply hnone
    have hfirst : first_match regex number (sort_rules (reply.filter eligible)) = none := by
      apply first_match_none
      intro r hr
      have hmem := List.mem_filter.1 ((mem_sort_rules r _).1 hr)
      have := hnone r hmem.1 hmem.2
      simpa [rewrite_applies] using this
    unfold dns_backend MAX_DNS_QUERIES
    simp only [dns_chain, hreply, hfirst]

/-- C23 at the replies of the tests: in `MultipleRuleTest` the rule for 1234 does not
match 5678 and the next rule decides, with or without the first in the reply; in
`IncompleteRegexpTest` and `InvalidRegexpTest` no rule remains and the result is empty
after one query. -/
theorem dns_backend_passes_over_witness :
    dns_backend test_regex (table_dns [("8.7.6.5.e164.arpa", multiple_rule_reply)])
      ".e164.arpa" "5678" = ("sip:5678@ut2.cw-ngv.com", 1) ∧
    DNSEnumService.lookup_uri_from_user test_regex
      (table_dns [("4.3.2.1.e164.arpa", incomplete_regexp_reply)]) ".e164.arpa" "1234" =
        ("", 1) ∧
    DNSEnumService.lookup_uri_from_user test_regex
      (table_dns [("4.3.2.1.e164.arpa", invalid_regexp_reply)]) ".e164.arpa" "1234" =
        ("", 1) :=
  ⟨((dns_backend_passes_over test_regex
        (table_dns [("8.7.6.5.e164.arpa", multiple_rule_reply)]) ".e164.arpa" "5678").2.1
      (fun name => ((table_dns [("8.7.6.5.e164.arpa", multiple_rule_reply)]) name).map
        (List.filter (rewrite_applies test_regex "5678")))
      (fun _ => rfl)).symm.trans rfl,
   (dns_backend_passes_over test_regex
      (table_dns [("4.3.2.1.e164.arpa", incomplete_regexp_reply)]) ".e164.arpa" "1234").2.2
      incomplete_regexp_reply rfl (by decide),
   (dns_backend_passes_over test_regex
      (table_dns [("4.3.2.1.e164.arpa", invalid_regexp_reply)]) ".e164.arpa" "1234").2.2
      invalid_regexp_reply rfl (by decide)⟩

end Sprout
